import Mathlib

/-!
# Lacework alert channels: Datadog and New Relic resources

A shallow embedding of `lacework/resource_lacework_alert_channel_datadog.go` and
`lacework/resource_lacework_alert_channel_newrelic.go`.

* Go strings are Lean strings (valid UTF-8 text); Go `int` is `Int`.
* A Go `error` is `Option String`: `none` is `nil`, `some msg` an error whose
  `Error()` text is `msg`.
* `*schema.ResourceData` is a record with one field per schema attribute plus
  the tracked identifier `Id`; `d.Set` writes a field, `d.SetId` writes `Id`.
* `*api.Client` is a record of the remote operations' answers; every operation
  returns, next to the new local state and the error, the list of remote calls
  it made, in order.
* `log.Printf` / `log.Println` only write to the process log and are left out.
-/

namespace Lacework

/-! ## `fmt` with a format string and no operands

`fmt.Errorf(msg)` hands `msg` to `doPrintf` as the *format*, with an empty
operand list.  The functions below follow `doPrintf`, `argNumber`,
`parseArgNumber` and `parsenum` of Go's `fmt/print.go` for `len(a) = 0`.
Positions in the format are kept as the remaining suffix of the text. -/

/-- Length in bytes of a text, Go's `len` of a string. -/
def utf8Len (s : List Char) : Nat :=
  (s.map Char.utf8Size).sum

/-- The bound of `tooLarge` in `fmt`: `x > 1e6`. -/
def tooLarge (x : Nat) : Bool :=
  decide (x > 1000000)

/-- Loop of `parsenum`: `none` is the overflow return. -/
def parsenumLoop : Nat → Bool → List Char → Option (Nat × Bool × List Char)
  | num, isnum, [] => some (num, isnum, [])
  | num, isnum, c :: cs =>
    if '0' ≤ c ∧ c ≤ '9' then
      if tooLarge num then none
      else parsenumLoop (num * 10 + (c.toNat - '0'.toNat)) true cs
    else some (num, isnum, c :: cs)

/-- `parsenum(s, start, end)` on the text `s[start:end]`: the number, whether
one was read, and what is left of `s[start:end]`.  On overflow Go returns
`(0, false, end)`, that is nothing is left. -/
def parsenum (s : List Char) : Nat × Bool × List Char :=
  match parsenumLoop 0 false s with
  | some r => r
  | none => (0, false, [])

/-- `parseArgNumber(format)` for a text starting with `[`: the text after the
`wid` bytes Go skips, and `ok`.  The index itself is not kept: with no operand
`argNumber` never accepts it. -/
def parseArgNumber (s : List Char) : List Char × Bool :=
  if utf8Len s < 3 then (s.drop 1, false)
  else
    match (s.drop 1).dropWhile (fun c => c != ']') with
    | [] => (s.drop 1, false)
    | _ :: rest =>
      match parsenum ((s.drop 1).takeWhile (fun c => c != ']')) with
      | (_, ok, left) => if !ok || !left.isEmpty then (rest, false) else (rest, true)

/-- `argNumber(argNum, format, i, 0)`: the text from the new position, `found`,
and the new value of `goodArgNum`. -/
def argNumber (s : List Char) (goodArgNum : Bool) : List Char × Bool × Bool :=
  match s with
  | '[' :: _ =>
    match parseArgNumber s with
    | (rest, ok) => (rest, ok, false)
  | _ => (s, false, goodArgNum)

/-- The flag loop of `doPrintf`: `#`, `0`, `+`, `-` and blank are skipped. -/
def skipFlags : List Char → List Char
  | [] => []
  | c :: cs =>
    if c = '#' ∨ c = '0' ∨ c = '+' ∨ c = '-' ∨ c = ' ' then skipFlags cs else c :: cs

/-- Width step of `doPrintf`: what is written, the text from the new position,
`afterIndex` and `goodArgNum`. -/
def widthStep (s : List Char) (afterIndex goodArgNum : Bool) :
    List Char × List Char × Bool × Bool :=
  match s with
  | '*' :: rest => ("%!(BADWIDTH)".data, rest, false, goodArgNum)
  | _ =>
    match parsenum s with
    | (_, widPresent, rest) =>
      ([], rest, afterIndex, if afterIndex && widPresent then false else goodArgNum)

/-- Precision step of `doPrintf`, entered when `i+1 < end && format[i] == '.'`:
a dot that ends the format is left to be read as the verb. -/
def precStep (s : List Char) (afterIndex goodArgNum : Bool) :
    List Char × List Char × Bool × Bool :=
  match s with
  | '.' :: c :: cs =>
    match argNumber (c :: cs) (if afterIndex then false else goodArgNum) with
    | (s2, afterIndex2, good2) =>
      match s2 with
      | '*' :: rest => ("%!(BADPREC)".data, rest, false, good2)
      | _ =>
        match parsenum s2 with
        | (_, _, rest) => ([], rest, afterIndex2, good2)
  | _ => ([], s, afterIndex, goodArgNum)

/-- One verb of `doPrintf`, from the character after `%`: what is written and
the text left, `none` when the format ended (`break`). -/
def verbStep (s : List Char) : List Char × Option (List Char) :=
  match argNumber (skipFlags s) true with
  | (s1, afterIndex1, good1) =>
    match widthStep s1 afterIndex1 good1 with
    | (out2, s2, afterIndex2, good2) =>
      match precStep s2 afterIndex2 good2 with
      | (out3, s3, afterIndex3, good3) =>
        match (if !afterIndex3 then argNumber s3 good3 else (s3, afterIndex3, good3)) with
        | (s4, _, good4) =>
          match s4 with
          | [] => (out2 ++ out3 ++ "%!(NOVERB)".data, none)
          | verb :: rest =>
            if verb = '%' then (out2 ++ out3 ++ ['%'], some rest)
            else if !good4 then
              (out2 ++ out3 ++ "%!".data ++ [verb] ++ "(BADINDEX)".data, some rest)
            else (out2 ++ out3 ++ "%!".data ++ [verb] ++ "(MISSING)".data, some rest)

/-- `doPrintf(format, nil)`: the text written.  Every round takes at least the
`%` it stops at, so `format.length + 1` rounds are enough. -/
def doPrintf : Nat → List Char → List Char
  | 0, _ => []
  | fuel + 1, format =>
    match format.dropWhile (fun c => c != '%') with
    | [] => format.takeWhile (fun c => c != '%')
    | _ :: s =>
      match verbStep s with
      | (out, none) => format.takeWhile (fun c => c != '%') ++ out
      | (out, some rest) => format.takeWhile (fun c => c != '%') ++ out ++ doPrintf fuel rest

/-- Text of the error `fmt.Errorf(format)` called with no operand. -/
def Errorf (format : String) : String :=
  String.mk (doPrintf (format.length + 1) format.data)

/-! ## Data model -/

/-- `api.DatadogChannelData`. -/
structure DatadogChannelData where
  DatadogSite : String
  DatadogService : String
  ApiKey : String
  deriving DecidableEq, Repr

/-- `api.DatadogAlertChannel`: the fields of the integration record the source
reads or writes. -/
structure DatadogAlertChannel where
  IntgGuid : String
  Name : String
  CreatedOrUpdatedTime : String
  CreatedOrUpdatedBy : String
  Enabled : Int
  IsOrg : Int
  TypeName : String
  Data : DatadogChannelData
  deriving DecidableEq, Repr

/-- `api.DatadogAlertChannelResponse`. -/
structure DatadogAlertChannelResponse where
  Data : List DatadogAlertChannel
  deriving DecidableEq, Repr

/-- `api.NewRelicChannelData`. -/
structure NewRelicChannelData where
  AccountID : Int
  InsertKey : String
  deriving DecidableEq, Repr

/-- `api.NewRelicAlertChannel`. -/
structure NewRelicAlertChannel where
  IntgGuid : String
  Name : String
  CreatedOrUpdatedTime : String
  CreatedOrUpdatedBy : String
  Enabled : Int
  IsOrg : Int
  TypeName : String
  Data : NewRelicChannelData
  deriving DecidableEq, Repr

/-- `api.NewRelicAlertChannelResponse`. -/
structure NewRelicAlertChannelResponse where
  Data : List NewRelicAlertChannel
  deriving DecidableEq, Repr

/-- Declarations the two files use and do not define: the constants and the
conversions of the `api` package, and `unexpectedBehaviorMsg()`.  A conversion
returns the converted value and the error the source discards. -/
structure Deps where
  DatadogSiteEu : String
  DatadogSiteCom : String
  DatadogServiceLogsDetails : String
  DatadogServiceLogsSummary : String
  DatadogServiceEventsSummary : String
  DatadogSite : String → String × Option String
  DatadogService : String → String × Option String
  unexpectedBehaviorMsg : String

/-! ## Response validation -/

/-- The raw string of the empty-data error. -/
def emptyDataMsg : String :=
  "\nUnable to read sever response data. (empty 'data' field)\n\nThis was an unexpected behavior, verify that your integration has been\ncreated successfully and report this issue to support@lacework.net\n"

/-- The raw string that opens the more-than-one error. -/
def moreThanOneMsg : String :=
  "\nThere is more that one integration inside the server response data.\n\nList of integrations:\n"

/-- `fmt.Sprintf("\t%s: %s\n", intgGuid, name)`. -/
def integrationLine (intgGuid name : String) : String :=
  "\t" ++ intgGuid ++ ": " ++ name ++ "\n"

/-- The `msg` of `validateDatadogAlertChannelResponse` after its `for` loop. -/
def datadogListMsg (msg : String) : List DatadogAlertChannel → String
  | [] => msg
  | integration :: rest =>
    datadogListMsg (msg ++ integrationLine integration.IntgGuid integration.Name) rest

/-- `validateDatadogAlertChannelResponse`. -/
def validateDatadogAlertChannelResponse (deps : Deps)
    (response : DatadogAlertChannelResponse) : Option String :=
  if response.Data.length = 0 then
    some (Errorf emptyDataMsg)
  else if response.Data.length > 1 then
    some (Errorf (datadogListMsg moreThanOneMsg response.Data ++ deps.unexpectedBehaviorMsg))
  else
    none

/-- The `msg` of `validateNewRelicAlertChannelResponse` after its `for` loop. -/
def newRelicListMsg (msg : String) : List NewRelicAlertChannel → String
  | [] => msg
  | integration :: rest =>
    newRelicListMsg (msg ++ integrationLine integration.IntgGuid integration.Name) rest

/-- `validateNewRelicAlertChannelResponse`. -/
def validateNewRelicAlertChannelResponse (deps : Deps)
    (response : NewRelicAlertChannelResponse) : Option String :=
  if response.Data.length = 0 then
    some (Errorf emptyDataMsg)
  else if response.Data.length > 1 then
    some (Errorf (newRelicListMsg moreThanOneMsg response.Data ++ deps.unexpectedBehaviorMsg))
  else
    none

/-! ## Schema validation functions -/

/-- `ValidateFunc` of `datadog_site`: the warnings and the errors. -/
def datadogSiteValidateFunc (deps : Deps) (value key : String) :
    List String × List String :=
  if value = deps.DatadogSiteEu ∨ value = deps.DatadogSiteCom then
    ([], [])
  else
    ([], [key ++ ": can only be either '" ++ deps.DatadogSiteEu ++ "' or '"
      ++ deps.DatadogSiteCom ++ "'"])

/-- `ValidateFunc` of `datadog_service`: the warnings and the errors. -/
def datadogServiceValidateFunc (deps : Deps) (value key : String) :
    List String × List String :=
  if value = deps.DatadogServiceLogsDetails ∨ value = deps.DatadogServiceLogsSummary
      ∨ value = deps.DatadogServiceEventsSummary then
    ([], [])
  else
    ([], [key ++ ": can only be either '" ++ deps.DatadogServiceLogsDetails ++ "', '"
      ++ deps.DatadogServiceLogsSummary ++ "' or '" ++ deps.DatadogServiceEventsSummary ++ "'"])

/-- A sample of the missing declarations, with the values of the Lacework Go SDK. -/
def sampleDeps : Deps where
  DatadogSiteEu := "eu"
  DatadogSiteCom := "com"
  DatadogServiceLogsDetails := "Logs Detail"
  DatadogServiceLogsSummary := "Logs Summary"
  DatadogServiceEventsSummary := "Events Summary"
  DatadogSite := fun s => if s = "eu" ∨ s = "com" then (s, none) else ("", some "invalid site")
  DatadogService := fun s =>
    if s = "Logs Detail" ∨ s = "Logs Summary" ∨ s = "Events Summary" then (s, none)
    else ("", some "invalid service")
  unexpectedBehaviorMsg := "\nThis was an unexpected behavior, please report this issue.\n"

/-! ## Local state, remote client, outcome of an operation -/

/-- `*schema.ResourceData` of `lacework_alert_channel_datadog`: the tracked
identifier and one field per schema attribute. -/
structure DatadogResourceData where
  Id : String
  name : String
  enabled : Bool
  datadog_site : String
  datadog_service : String
  api_key : String
  test_integration : Bool
  intg_guid : String
  created_or_updated_time : String
  created_or_updated_by : String
  type_name : String
  org_level : Bool
  deriving DecidableEq, Repr

/-- `*schema.ResourceData` of `lacework_alert_channel_newrelic`. -/
structure NewRelicResourceData where
  Id : String
  name : String
  intg_guid : String
  enabled : Bool
  account_id : Int
  insert_key : String
  test_integration : Bool
  created_or_updated_time : String
  created_or_updated_by : String
  type_name : String
  org_level : Bool
  deriving DecidableEq, Repr

/-- A call on the remote service. -/
inductive Call where
  | CreateDatadogAlertChannel (data : DatadogAlertChannel)
  | UpdateDatadogAlertChannel (data : DatadogAlertChannel)
  | GetDatadogAlertChannel (guid : String)
  | CreateNewRelicAlertChannel (data : NewRelicAlertChannel)
  | UpdateNewRelicAlertChannel (data : NewRelicAlertChannel)
  | GetNewRelicAlertChannel (guid : String)
  | Test (guid : String)
  | Delete (guid : String)
  deriving DecidableEq, Repr

/-- `*api.Client`: what the remote service answers to each call.  `Test` and
`Delete` answer with an error or `nil`. -/
structure Client where
  CreateDatadogAlertChannel : DatadogAlertChannel → Except String DatadogAlertChannelResponse
  UpdateDatadogAlertChannel : DatadogAlertChannel → Except String DatadogAlertChannelResponse
  GetDatadogAlertChannel : String → Except String DatadogAlertChannelResponse
  CreateNewRelicAlertChannel : NewRelicAlertChannel → Except String NewRelicAlertChannelResponse
  UpdateNewRelicAlertChannel : NewRelicAlertChannel → Except String NewRelicAlertChannelResponse
  GetNewRelicAlertChannel : String → Except String NewRelicAlertChannelResponse
  Test : String → Option String
  Delete : String → Option String

/-- What an operation leaves behind: the local state, the remote calls made in
order, and the returned error. -/
structure Outcome (σ : Type) where
  d : σ
  calls : List Call
  err : Option String

/-- Text of the Go runtime panic of `response.Data[0]` on an empty slice. -/
def indexOutOfRange : String :=
  "panic: runtime error: index out of range [0] with length 0"

/-- Modelled from the spec: `api.NewDatadogAlertChannel`, the constructor of the
Lacework Go SDK, which is not under the source tree.  It builds the request
payload for a name and channel data; the payload is enabled (section 4.1:
the tri-state encoding of enabled is 1, and absence of the field defaults to
enabled) and every field the server assigns is still empty. -/
def NewDatadogAlertChannel (name : String) (data : DatadogChannelData) : DatadogAlertChannel where
  IntgGuid := ""
  Name := name
  CreatedOrUpdatedTime := ""
  CreatedOrUpdatedBy := ""
  Enabled := 1
  IsOrg := 0
  TypeName := ""
  Data := data

/-- Modelled from the spec: `api.NewNewRelicAlertChannel`, the constructor of the
Lacework Go SDK, which is not under the source tree.  Same shape as the Datadog
constructor: an enabled payload (section 4.1) for a name and channel data. -/
def NewNewRelicAlertChannel (name : String) (data : NewRelicChannelData) : NewRelicAlertChannel where
  IntgGuid := ""
  Name := name
  CreatedOrUpdatedTime := ""
  CreatedOrUpdatedBy := ""
  Enabled := 1
  IsOrg := 0
  TypeName := ""
  Data := data

/-- Modelled from the spec: `VerifyAlertChannelAndRollback`, defined in a file of
the provider that is not under the source tree.  Section 4.4: invoke the
remote test for the identifier; on success return success; on failure delete
the integration at that identifier (best effort, the answer of the delete does
not replace the test failure) and return the test failure.  The result is the
calls made and the error. -/
def VerifyAlertChannelAndRollback (id : String) (lacework : Client) : List Call × Option String :=
  match lacework.Test id with
  | none => ([Call.Test id], none)
  | some err => ([Call.Test id, Call.Delete id], some err)

/-! ## Datadog -/

/-- The payload `datadog` that `resourceLaceworkAlertChannelDatadogCreate`
builds before it calls the service. -/
def datadogCreatePayload (deps : Deps) (d : DatadogResourceData) : DatadogAlertChannel :=
  let site := (deps.DatadogSite d.datadog_site).1
  let service := (deps.DatadogService d.datadog_service).1
  let datadog := NewDatadogAlertChannel d.name
    { DatadogSite := site, DatadogService := service, ApiKey := d.api_key }
  if !d.enabled then { datadog with Enabled := 0 } else datadog

/-- The payload `datadog` that `resourceLaceworkAlertChannelDatadogUpdate`
builds before it calls the service. -/
def datadogUpdatePayload (deps : Deps) (d : DatadogResourceData) : DatadogAlertChannel :=
  let site := (deps.DatadogSite d.datadog_site).1
  let service := (deps.DatadogService d.datadog_service).1
  let datadog := NewDatadogAlertChannel d.name
    { DatadogSite := site, DatadogService := service, ApiKey := d.api_key }
  let datadog := if !d.enabled then { datadog with Enabled := 0 } else datadog
  { datadog with IntgGuid := d.Id }

/-- `resourceLaceworkAlertChannelDatadogCreate`. -/
def resourceLaceworkAlertChannelDatadogCreate (deps : Deps) (d : DatadogResourceData)
    (lacework : Client) : Outcome DatadogResourceData :=
  let datadog := datadogCreatePayload deps d
  match lacework.CreateDatadogAlertChannel datadog with
  | .error err => ⟨d, [Call.CreateDatadogAlertChannel datadog], some err⟩
  | .ok response =>
    match validateDatadogAlertChannelResponse deps response with
    | some err => ⟨d, [Call.CreateDatadogAlertChannel datadog], some err⟩
    | none =>
      match response.Data with
      | [] => ⟨d, [Call.CreateDatadogAlertChannel datadog], some indexOutOfRange⟩
      | integration :: _ =>
        let d := { d with Id := integration.IntgGuid }
        let d := { d with name := integration.Name }
        let d := { d with intg_guid := integration.IntgGuid }
        let d := { d with enabled := decide (integration.Enabled = 1) }
        let d := { d with created_or_updated_time := integration.CreatedOrUpdatedTime }
        let d := { d with created_or_updated_by := integration.CreatedOrUpdatedBy }
        let d := { d with type_name := integration.TypeName }
        let d := { d with org_level := decide (integration.IsOrg = 1) }
        if d.test_integration then
          match VerifyAlertChannelAndRollback d.Id lacework with
          | (calls, some err) => ⟨d, Call.CreateDatadogAlertChannel datadog :: calls, some err⟩
          | (calls, none) => ⟨d, Call.CreateDatadogAlertChannel datadog :: calls, none⟩
        else
          ⟨d, [Call.CreateDatadogAlertChannel datadog], none⟩

/-- The `for` loop of `resourceLaceworkAlertChannelDatadogRead`: the state after
the first record whose `IntgGuid` is the tracked identifier, `none` when the
loop ends without one. -/
def datadogReadLoop (d : DatadogResourceData) :
    List DatadogAlertChannel → Option DatadogResourceData
  | [] => none
  | integration :: rest =>
    if integration.IntgGuid = d.Id then
      let d := { d with name := integration.Name }
      let d := { d with intg_guid := integration.IntgGuid }
      let d := { d with enabled := decide (integration.Enabled = 1) }
      let d := { d with created_or_updated_time := integration.CreatedOrUpdatedTime }
      let d := { d with created_or_updated_by := integration.CreatedOrUpdatedBy }
      let d := { d with type_name := integration.TypeName }
      let d := { d with org_level := decide (integration.IsOrg = 1) }
      let d := { d with datadog_site := integration.Data.DatadogSite }
      let d := { d with datadog_service := integration.Data.DatadogService }
      some d
    else datadogReadLoop d rest

/-- `resourceLaceworkAlertChannelDatadogRead`. -/
def resourceLaceworkAlertChannelDatadogRead (d : DatadogResourceData)
    (lacework : Client) : Outcome DatadogResourceData :=
  match lacework.GetDatadogAlertChannel d.Id with
  | .error err => ⟨d, [Call.GetDatadogAlertChannel d.Id], some err⟩
  | .ok response =>
    match datadogReadLoop d response.Data with
    | some d1 => ⟨d1, [Call.GetDatadogAlertChannel d.Id], none⟩
    | none => ⟨{ d with Id := "" }, [Call.GetDatadogAlertChannel d.Id], none⟩

/-- `resourceLaceworkAlertChannelDatadogUpdate`. -/
def resourceLaceworkAlertChannelDatadogUpdate (deps : Deps) (d : DatadogResourceData)
    (lacework : Client) : Outcome DatadogResourceData :=
  let datadog := datadogUpdatePayload deps d
  match lacework.UpdateDatadogAlertChannel datadog with
  | .error err => ⟨d, [Call.UpdateDatadogAlertChannel datadog], some err⟩
  | .ok response =>
    match validateDatadogAlertChannelResponse deps response with
    | some err => ⟨d, [Call.UpdateDatadogAlertChannel datadog], some err⟩
    | none =>
      match response.Data with
      | [] => ⟨d, [Call.UpdateDatadogAlertChannel datadog], some indexOutOfRange⟩
      | integration :: _ =>
        let d := { d with name := integration.Name }
        let d := { d with intg_guid := integration.IntgGuid }
        let d := { d with enabled := decide (integration.Enabled = 1) }
        let d := { d with created_or_updated_time := integration.CreatedOrUpdatedTime }
        let d := { d with created_or_updated_by := integration.CreatedOrUpdatedBy }
        let d := { d with type_name := integration.TypeName }
        let d := { d with org_level := decide (integration.IsOrg = 1) }
        if d.test_integration then
          match lacework.Test d.Id with
          | some err =>
            ⟨d, [Call.UpdateDatadogAlertChannel datadog, Call.Test d.Id], some err⟩
          | none => ⟨d, [Call.UpdateDatadogAlertChannel datadog, Call.Test d.Id], none⟩
        else
          ⟨d, [Call.UpdateDatadogAlertChannel datadog], none⟩

/-- `resourceLaceworkAlertChannelDatadogDelete`. -/
def resourceLaceworkAlertChannelDatadogDelete (d : DatadogResourceData)
    (lacework : Client) : Outcome DatadogResourceData :=
  match lacework.Delete d.Id with
  | some err => ⟨d, [Call.Delete d.Id], some err⟩
  | none => ⟨d, [Call.Delete d.Id], none⟩

/-! ## New Relic -/

/-- The payload `relic` that `resourceLaceworkAlertChannelNewRelicCreate` builds
before it calls the service. -/
def newRelicCreatePayload (d : NewRelicResourceData) : NewRelicAlertChannel :=
  let relic := NewNewRelicAlertChannel d.name
    { AccountID := d.account_id, InsertKey := d.insert_key }
  if !d.enabled then { relic with Enabled := 0 } else relic

/-- The payload `relic` that `resourceLaceworkAlertChannelNewRelicUpdate` builds
before it calls the service. -/
def newRelicUpdatePayload (d : NewRelicResourceData) : NewRelicAlertChannel :=
  let relic := NewNewRelicAlertChannel d.name
    { AccountID := d.account_id, InsertKey := d.insert_key }
  let relic := if !d.enabled then { relic with Enabled := 0 } else relic
  { relic with IntgGuid := d.Id }

/-- `resourceLaceworkAlertChannelNewRelicCreate`. -/
def resourceLaceworkAlertChannelNewRelicCreate (deps : Deps) (d : NewRelicResourceData)
    (lacework : Client) : Outcome NewRelicResourceData :=
  let relic := newRelicCreatePayload d
  match lacework.CreateNewRelicAlertChannel relic with
  | .error err => ⟨d, [Call.CreateNewRelicAlertChannel relic], some err⟩
  | .ok response =>
    match validateNewRelicAlertChannelResponse deps response with
    | some err => ⟨d, [Call.CreateNewRelicAlertChannel relic], some err⟩
    | none =>
      match response.Data with
      | [] => ⟨d, [Call.CreateNewRelicAlertChannel relic], some indexOutOfRange⟩
      | integration :: _ =>
        let d := { d with Id := integration.IntgGuid }
        let d := { d with name := integration.Name }
        let d := { d with intg_guid := integration.IntgGuid }
        let d := { d with enabled := decide (integration.Enabled = 1) }
        let d := { d with created_or_updated_time := integration.CreatedOrUpdatedTime }
        let d := { d with created_or_updated_by := integration.CreatedOrUpdatedBy }
        let d := { d with type_name := integration.TypeName }
        let d := { d with org_level := decide (integration.IsOrg = 1) }
        if d.test_integration then
          match VerifyAlertChannelAndRollback d.Id lacework with
          | (calls, some err) => ⟨d, Call.CreateNewRelicAlertChannel relic :: calls, some err⟩
          | (calls, none) => ⟨d, Call.CreateNewRelicAlertChannel relic :: calls, none⟩
        else
          ⟨d, [Call.CreateNewRelicAlertChannel relic], none⟩

/-- The `for` loop of `resourceLaceworkAlertChannelNewRelicRead`. -/
def newRelicReadLoop (d : NewRelicResourceData) :
    List NewRelicAlertChannel → Option NewRelicResourceData
  | [] => none
  | integration :: rest =>
    if integration.IntgGuid = d.Id then
      let d := { d with name := integration.Name }
      let d := { d with intg_guid := integration.IntgGuid }
      let d := { d with enabled := decide (integration.Enabled = 1) }
      let d := { d with created_or_updated_time := integration.CreatedOrUpdatedTime }
      let d := { d with created_or_updated_by := integration.CreatedOrUpdatedBy }
      let d := { d with type_name := integration.TypeName }
      let d := { d with org_level := decide (integration.IsOrg = 1) }
      let d := { d with account_id := integration.Data.AccountID }
      let d := { d with insert_key := integration.Data.InsertKey }
      some d
    else newRelicReadLoop d rest

/-- `resourceLaceworkAlertChannelNewRelicRead`. -/
def resourceLaceworkAlertChannelNewRelicRead (d : NewRelicResourceData)
    (lacework : Client) : Outcome NewRelicResourceData :=
  match lacework.GetNewRelicAlertChannel d.Id with
  | .error err => ⟨d, [Call.GetNewRelicAlertChannel d.Id], some err⟩
  | .ok response =>
    match newRelicReadLoop d response.Data with
    | some d1 => ⟨d1, [Call.GetNewRelicAlertChannel d.Id], none⟩
    | none => ⟨{ d with Id := "" }, [Call.GetNewRelicAlertChannel d.Id], none⟩

/-- `resourceLaceworkAlertChannelNewRelicUpdate`. -/
def resourceLaceworkAlertChannelNewRelicUpdate (deps : Deps) (d : NewRelicResourceData)
    (lacework : Client) : Outcome NewRelicResourceData :=
  let relic := newRelicUpdatePayload d
  match lacework.UpdateNewRelicAlertChannel relic with
  | .error err => ⟨d, [Call.UpdateNewRelicAlertChannel relic], some err⟩
  | .ok response =>
    match validateNewRelicAlertChannelResponse deps response with
    | some err => ⟨d, [Call.UpdateNewRelicAlertChannel relic], some err⟩
    | none =>
      match response.Data with
      | [] => ⟨d, [Call.UpdateNewRelicAlertChannel relic], some indexOutOfRange⟩
      | integration :: _ =>
        let d := { d with name := integration.Name }
        let d := { d with intg_guid := integration.IntgGuid }
        let d := { d with enabled := decide (integration.Enabled = 1) }
        let d := { d with created_or_updated_time := integration.CreatedOrUpdatedTime }
        let d := { d with created_or_updated_by := integration.CreatedOrUpdatedBy }
        let d := { d with type_name := integration.TypeName }
        let d := { d with org_level := decide (integration.IsOrg = 1) }
        if d.test_integration then
          match lacework.Test d.Id with
          | some err =>
            ⟨d, [Call.UpdateNewRelicAlertChannel relic, Call.Test d.Id], some err⟩
          | none => ⟨d, [Call.UpdateNewRelicAlertChannel relic, Call.Test d.Id], none⟩
        else
          ⟨d, [Call.UpdateNewRelicAlertChannel relic], none⟩

/-- `resourceLaceworkAlertChannelNewRelicDelete`. -/
def resourceLaceworkAlertChannelNewRelicDelete (d : NewRelicResourceData)
    (lacework : Client) : Outcome NewRelicResourceData :=
  match lacework.Delete d.Id with
  | some err => ⟨d, [Call.Delete d.Id], some err⟩
  | none => ⟨d, [Call.Delete d.Id], none⟩

/-! ## Sample inputs -/

/-- A Datadog integration record as the server would return it. -/
def sampleDatadogRecord (intgGuid name : String) (enabled : Int) : DatadogAlertChannel where
  IntgGuid := intgGuid
  Name := name
  CreatedOrUpdatedTime := "2021-03-01T10:00:00Z"
  CreatedOrUpdatedBy := "ops@example.com"
  Enabled := enabled
  IsOrg := 0
  TypeName := "DATADOG"
  Data := { DatadogSite := "com", DatadogService := "Logs Detail", ApiKey := "key" }

/-- A New Relic integration record as the server would return it. -/
def sampleNewRelicRecord (intgGuid name : String) (enabled : Int) : NewRelicAlertChannel where
  IntgGuid := intgGuid
  Name := name
  CreatedOrUpdatedTime := "2021-03-01T10:00:00Z"
  CreatedOrUpdatedBy := "ops@example.com"
  Enabled := enabled
  IsOrg := 0
  TypeName := "NEW_RELIC_INSIGHTS"
  Data := { AccountID := 2338053, InsertKey := "key" }

/-- A service that answers every Datadog call with the records `dd`, every New
Relic call with the records `nr`, a test with `test`, and accepts a delete. -/
def sampleClient (dd : List DatadogAlertChannel) (nr : List NewRelicAlertChannel)
    (test : Option String) : Client where
  CreateDatadogAlertChannel := fun _ => .ok ⟨dd⟩
  UpdateDatadogAlertChannel := fun _ => .ok ⟨dd⟩
  GetDatadogAlertChannel := fun _ => .ok ⟨dd⟩
  CreateNewRelicAlertChannel := fun _ => .ok ⟨nr⟩
  UpdateNewRelicAlertChannel := fun _ => .ok ⟨nr⟩
  GetNewRelicAlertChannel := fun _ => .ok ⟨nr⟩
  Test := fun _ => test
  Delete := fun _ => none

/-- A declared Datadog configuration with tracked identifier `id`. -/
def sampleDatadogState (id site : String) (enabled testIntegration : Bool) :
    DatadogResourceData where
  Id := id
  name := "datadog-alerts"
  enabled := enabled
  datadog_site := site
  datadog_service := "Logs Detail"
  api_key := "key"
  test_integration := testIntegration
  intg_guid := id
  created_or_updated_time := ""
  created_or_updated_by := ""
  type_name := ""
  org_level := false

/-- A declared New Relic configuration with tracked identifier `id`. -/
def sampleNewRelicState (id : String) (enabled testIntegration : Bool) :
    NewRelicResourceData where
  Id := id
  name := "newrelic-alerts"
  intg_guid := id
  enabled := enabled
  account_id := 2338053
  insert_key := "key"
  test_integration := testIntegration
  created_or_updated_time := ""
  created_or_updated_by := ""
  type_name := ""
  org_level := false

set_option maxRecDepth 100000

/-! ## Response validation: theorems -/

theorem validateDatadog_eq_none_iff (deps : Deps) (response : DatadogAlertChannelResponse) :
    validateDatadogAlertChannelResponse deps response = none ↔ response.Data.length = 1 := by
  unfold validateDatadogAlertChannelResponse
  split_ifs with h0 h1
  · simp [h0]
  · simp; omega
  · simp; omega

theorem validateNewRelic_eq_none_iff (deps : Deps) (response : NewRelicAlertChannelResponse) :
    validateNewRelicAlertChannelResponse deps response = none ↔ response.Data.length = 1 := by
  unfold validateNewRelicAlertChannelResponse
  split_ifs with h0 h1
  · simp [h0]
  · simp; omega
  · simp; omega

/-- C1: `validateDatadogAlertChannelResponse` and
`validateNewRelicAlertChannelResponse` return `nil` if and only if the
envelope holds exactly one record; with zero records, or with two or more,
they return an error. -/
theorem validate_response_nil_iff_exactly_one (deps : Deps)
    (dd : DatadogAlertChannelResponse) (nr : NewRelicAlertChannelResponse) :
    (validateDatadogAlertChannelResponse deps dd = none ↔ dd.Data.length = 1) ∧
    (validateNewRelicAlertChannelResponse deps nr = none ↔ nr.Data.length = 1) ∧
    ((validateDatadogAlertChannelResponse deps dd).isSome = true ↔
      dd.Data.length = 0 ∨ 2 ≤ dd.Data.length) ∧
    ((validateNewRelicAlertChannelResponse deps nr).isSome = true ↔
      nr.Data.length = 0 ∨ 2 ≤ nr.Data.length) := by
  refine ⟨validateDatadog_eq_none_iff deps dd, validateNewRelic_eq_none_iff deps nr, ?_, ?_⟩
  · rw [Option.isSome_iff_ne_none, Ne, validateDatadog_eq_none_iff]
    omega
  · rw [Option.isSome_iff_ne_none, Ne, validateNewRelic_eq_none_iff]
    omega

/-! ## Schema validation functions: theorems -/

/-- C4: the `datadog_site` ValidateFunc returns no error exactly on the two
allowed sites and the `datadog_service` ValidateFunc exactly on the three
allowed services; on every other value each returns exactly one error, whose
message starts with the key and contains every allowed value. -/
theorem datadog_validate_funcs_allow_list (deps : Deps) (v k : String) :
    ((datadogSiteValidateFunc deps v k).2 = [] ↔
      (v = deps.DatadogSiteEu ∨ v = deps.DatadogSiteCom)) ∧
    ((datadogServiceValidateFunc deps v k).2 = [] ↔
      (v = deps.DatadogServiceLogsDetails ∨ v = deps.DatadogServiceLogsSummary
        ∨ v = deps.DatadogServiceEventsSummary)) ∧
    (¬ (v = deps.DatadogSiteEu ∨ v = deps.DatadogSiteCom) →
      ∃ msg, (datadogSiteValidateFunc deps v k).2 = [msg] ∧
        msg = k ++ ": can only be either \x27" ++ deps.DatadogSiteEu ++ "\x27 or \x27"
          ++ deps.DatadogSiteCom ++ "\x27" ∧
        k.data <+: msg.data ∧
        deps.DatadogSiteEu.data <:+: msg.data ∧ deps.DatadogSiteCom.data <:+: msg.data) ∧
    (¬ (v = deps.DatadogServiceLogsDetails ∨ v = deps.DatadogServiceLogsSummary
        ∨ v = deps.DatadogServiceEventsSummary) →
      ∃ msg, (datadogServiceValidateFunc deps v k).2 = [msg] ∧
        msg = k ++ ": can only be either \x27" ++ deps.DatadogServiceLogsDetails ++ "\x27, \x27"
          ++ deps.DatadogServiceLogsSummary ++ "\x27 or \x27"
          ++ deps.DatadogServiceEventsSummary ++ "\x27" ∧
        k.data <+: msg.data ∧
        deps.DatadogServiceLogsDetails.data <:+: msg.data ∧
        deps.DatadogServiceLogsSummary.data <:+: msg.data ∧
        deps.DatadogServiceEventsSummary.data <:+: msg.data) := by
  refine ⟨?_, ?_, ?_, ?_⟩
  · unfold datadogSiteValidateFunc
    split_ifs with h <;> simp [h]
  · unfold datadogServiceValidateFunc
    split_ifs with h <;> simp [h]
  · intro h
    refine ⟨_, by simp [datadogSiteValidateFunc, h], rfl, ?_, ?_, ?_⟩
    · simp only [String.data_append, List.append_assoc]
      exact List.prefix_append _ _
    · simp only [String.data_append, List.append_assoc]
      exact ⟨k.data ++ ": can only be either \x27".data, _, by simp [List.append_assoc]; rfl⟩
    · simp only [String.data_append, List.append_assoc]
      exact ⟨k.data ++ ": can only be either \x27".data ++ deps.DatadogSiteEu.data
        ++ "\x27 or \x27".data, _, by simp [List.append_assoc]; rfl⟩
  · intro h
    refine ⟨_, by simp [datadogServiceValidateFunc, h], rfl, ?_, ?_, ?_, ?_⟩
    · simp only [String.data_append, List.append_assoc]
      exact List.prefix_append _ _
    · simp only [String.data_append, List.append_assoc]
      exact ⟨k.data ++ ": can only be either \x27".data, _, by simp [List.append_assoc]; rfl⟩
    · simp only [String.data_append, List.append_assoc]
      exact ⟨k.data ++ ": can only be either \x27".data ++ deps.DatadogServiceLogsDetails.data
        ++ "\x27, \x27".data, _, by simp [List.append_assoc]; rfl⟩
    · simp only [String.data_append, List.append_assoc]
      exact ⟨k.data ++ ": can only be either \x27".data ++ deps.DatadogServiceLogsDetails.data
        ++ "\x27, \x27".data ++ deps.DatadogServiceLogsSummary.data ++ "\x27 or \x27".data,
        _, by simp [List.append_assoc]; rfl⟩

theorem datadog_validate_funcs_allow_list_witness :
    (datadogSiteValidateFunc sampleDeps "eu" "datadog_site").2 = [] ∧
    (datadogSiteValidateFunc sampleDeps "invalid-region" "datadog_site").2 =
      ["datadog_site: can only be either \x27eu\x27 or \x27com\x27"] := by
  constructor
  · exact (datadog_validate_funcs_allow_list sampleDeps "eu" "datadog_site").1.2 (by decide)
  · obtain ⟨msg, h1, h2, -⟩ :=
      (datadog_validate_funcs_allow_list sampleDeps "invalid-region" "datadog_site").2.2.1
        (by decide)
    rw [h1, h2]
    decide

/-! ## `fmt`: the rounds of `doPrintf` are enough, and text without `%` is kept -/

theorem parsenumLoop_length (s : List Char) : ∀ (num : Nat) (isnum : Bool) (r : Nat × Bool × List Char),
    parsenumLoop num isnum s = some r → r.2.2.length ≤ s.length := by
  induction s with
  | nil => intro num isnum r h; simp [parsenumLoop] at h; subst h; simp
  | cons c cs ih =>
    intro num isnum r h
    unfold parsenumLoop at h
    split_ifs at h with h1 h2
    · have := ih _ _ _ h
      simp; omega
    · simp at h; subst h; simp

theorem parsenum_length (s : List Char) : (parsenum s).2.2.length ≤ s.length := by
  unfold parsenum
  cases h : parsenumLoop 0 false s with
  | none => simp
  | some r => exact parsenumLoop_length s _ _ _ h

theorem dropWhile_length_le (p : Char → Bool) (s : List Char) :
    (s.dropWhile p).length ≤ s.length :=
  (List.dropWhile_suffix p).length_le

theorem parseArgNumber_length (s : List Char) : (parseArgNumber s).1.length ≤ s.length := by
  unfold parseArgNumber
  split_ifs
  · simp
  · have h := dropWhile_length_le (fun c => c != ']') (s.drop 1)
    split
    · simp
    · rename_i rest heq
      rw [heq] at h
      simp at h
      split
      split_ifs <;> simp <;> omega

theorem argNumber_length (s : List Char) (g : Bool) : (argNumber s g).1.length ≤ s.length := by
  unfold argNumber
  split
  · exact parseArgNumber_length _
  · simp

theorem skipFlags_length (s : List Char) : (skipFlags s).length ≤ s.length := by
  induction s with
  | nil => simp [skipFlags]
  | cons c cs ih =>
    unfold skipFlags
    split_ifs
    · simp; omega
    · simp

theorem widthStep_length (s : List Char) (a g : Bool) :
    (widthStep s a g).2.1.length ≤ s.length := by
  unfold widthStep
  split
  · simp
  · exact parsenum_length s

theorem precStep_length (s : List Char) (a g : Bool) :
    (precStep s a g).2.1.length ≤ s.length := by
  unfold precStep
  split
  · rename_i c cs
    have h1 := argNumber_length (c :: cs) (if a then false else g)
    generalize argNumber (c :: cs) (if a then false else g) = r at h1
    obtain ⟨s2, a2, g2⟩ := r
    simp only [List.length_cons] at h1 ⊢
    split
    · simp only [List.length_cons] at h1 ⊢
      omega
    · have h2 := parsenum_length s2
      generalize parsenum s2 = r2 at h2
      obtain ⟨n2, b2, rest2⟩ := r2
      simp only [List.length_cons] at h2 ⊢
      omega
  · simp

theorem verbStep_length (s : List Char) (out rest : List Char)
    (h : verbStep s = (out, some rest)) : rest.length < s.length := by
  unfold verbStep at h
  have l0 := skipFlags_length s
  have l1 := argNumber_length (skipFlags s) true
  rcases e1 : argNumber (skipFlags s) true with ⟨s1, a1, g1⟩
  rw [e1] at h l1
  dsimp only at h l1
  have l2 := widthStep_length s1 a1 g1
  rcases e2 : widthStep s1 a1 g1 with ⟨o2, s2, a2, g2⟩
  rw [e2] at h l2
  dsimp only at h l2
  have l3 := precStep_length s2 a2 g2
  rcases e3 : precStep s2 a2 g2 with ⟨o3, s3, a3, g3⟩
  rw [e3] at h l3
  dsimp only at h l3
  have l4 := argNumber_length s3 g3
  rcases e4 : (if (!a3) = true then argNumber s3 g3 else (s3, a3, g3)) with ⟨s4, a4, g4⟩
  have l5 : s4.length ≤ s3.length := by
    split_ifs at e4
    · rw [e4] at l4; exact l4
    · simp only [Prod.mk.injEq] at e4
      rw [← e4.1]
  rw [e4] at h
  dsimp only at h
  cases s4 with
  | nil => simp at h
  | cons v rest4 =>
    simp only [List.length_cons] at l5
    dsimp only at h
    split_ifs at h <;> simp only [Prod.mk.injEq, Option.some.injEq] at h <;>
      obtain ⟨-, rfl⟩ := h <;> omega

/-- More rounds than `format.length` never change what `doPrintf` writes. -/
theorem doPrintf_fuel (n : Nat) : ∀ (format : List Char) (f1 f2 : Nat),
    format.length ≤ n → format.length < f1 → format.length < f2 →
    doPrintf f1 format = doPrintf f2 format := by
  induction n with
  | zero =>
    intro format f1 f2 hn h1 h2
    have : format = [] := List.length_eq_zero.mp (by omega)
    subst this
    obtain ⟨k1, rfl⟩ : ∃ k, f1 = k + 1 := ⟨f1 - 1, by simp at h1; omega⟩
    obtain ⟨k2, rfl⟩ : ∃ k, f2 = k + 1 := ⟨f2 - 1, by simp at h2; omega⟩
    simp [doPrintf]
  | succ n ih =>
    intro format f1 f2 hn h1 h2
    obtain ⟨k1, rfl⟩ : ∃ k, f1 = k + 1 := ⟨f1 - 1, by omega⟩
    obtain ⟨k2, rfl⟩ : ∃ k, f2 = k + 1 := ⟨f2 - 1, by omega⟩
    unfold doPrintf
    have hd := dropWhile_length_le (fun c => c != '%') format
    cases hdw : format.dropWhile (fun c => c != '%') with
    | nil => rfl
    | cons c s =>
      rw [hdw] at hd
      simp only [List.length_cons] at hd
      cases hv : verbStep s with
      | mk out r =>
        cases r with
        | none => simp only [hv]
        | some rest =>
          have := verbStep_length s out rest hv
          simp only [hv]
          rw [ih rest k1 k2 (by omega) (by omega) (by omega)]

theorem doPrintf_of_no_percent (format : List Char) (h : '%' ∉ format) (fuel : Nat) :
    doPrintf (fuel + 1) format = format := by
  have hall : ∀ c ∈ format, (c != '%') = true := by
    intro c hc
    simp only [bne_iff_ne, ne_eq]
    rintro rfl
    exact h hc
  unfold doPrintf
  rw [List.dropWhile_eq_nil_iff.mpr hall]
  simp only
  exact List.takeWhile_eq_self_iff.mpr hall

theorem Errorf_of_no_percent (format : String) (h : '%' ∉ format.data) :
    Errorf format = format := by
  unfold Errorf
  rw [doPrintf_of_no_percent _ h]

/-! ## Datadog operations: lemmas -/

theorem validateDatadog_of_singleton (deps : Deps) (response : DatadogAlertChannelResponse)
    (R : DatadogAlertChannel) (hR : response.Data = [R]) :
    validateDatadogAlertChannelResponse deps response = none :=
  (validateDatadog_eq_none_iff deps response).mpr (by simp [hR])

/-- The local state `resourceLaceworkAlertChannelDatadogCreate` leaves when the
service answers its submission with the single record `R`. -/
theorem datadogCreate_state (deps : Deps) (d : DatadogResourceData) (lacework : Client)
    (response : DatadogAlertChannelResponse) (R : DatadogAlertChannel)
    (h : lacework.CreateDatadogAlertChannel (datadogCreatePayload deps d) = .ok response)
    (hR : response.Data = [R]) :
    (resourceLaceworkAlertChannelDatadogCreate deps d lacework).d =
      { d with
        Id := R.IntgGuid, name := R.Name, intg_guid := R.IntgGuid,
        enabled := decide (R.Enabled = 1),
        created_or_updated_time := R.CreatedOrUpdatedTime,
        created_or_updated_by := R.CreatedOrUpdatedBy,
        type_name := R.TypeName, org_level := decide (R.IsOrg = 1) } := by
  unfold resourceLaceworkAlertChannelDatadogCreate
  simp only [h, validateDatadog_of_singleton deps response R hR, hR]
  split_ifs
  · split <;> rfl
  · rfl

/-- Create without the delivery test: one remote call, no error. -/
theorem datadogCreate_no_test (deps : Deps) (d : DatadogResourceData) (lacework : Client)
    (response : DatadogAlertChannelResponse) (R : DatadogAlertChannel)
    (h : lacework.CreateDatadogAlertChannel (datadogCreatePayload deps d) = .ok response)
    (hR : response.Data = [R]) (ht : d.test_integration = false) :
    (resourceLaceworkAlertChannelDatadogCreate deps d lacework).calls =
      [Call.CreateDatadogAlertChannel (datadogCreatePayload deps d)] ∧
    (resourceLaceworkAlertChannelDatadogCreate deps d lacework).err = none := by
  unfold resourceLaceworkAlertChannelDatadogCreate
  simp only [h, validateDatadog_of_singleton deps response R hR, hR]
  simp [ht]

/-- The first remote call of Create is the submission of the payload. -/
theorem datadogCreate_first_call (deps : Deps) (d : DatadogResourceData) (lacework : Client) :
    (resourceLaceworkAlertChannelDatadogCreate deps d lacework).calls.head? =
      some (Call.CreateDatadogAlertChannel (datadogCreatePayload deps d)) := by
  unfold resourceLaceworkAlertChannelDatadogCreate
  dsimp only
  split
  · rfl
  · split
    · rfl
    · split
      · rfl
      · split_ifs
        · split <;> rfl
        · rfl

/-- The local state `resourceLaceworkAlertChannelDatadogUpdate` leaves when the
service answers its submission with the single record `R`. -/
theorem datadogUpdate_state (deps : Deps) (d : DatadogResourceData) (lacework : Client)
    (response : DatadogAlertChannelResponse) (R : DatadogAlertChannel)
    (h : lacework.UpdateDatadogAlertChannel (datadogUpdatePayload deps d) = .ok response)
    (hR : response.Data = [R]) :
    (resourceLaceworkAlertChannelDatadogUpdate deps d lacework).d =
      { d with
        name := R.Name, intg_guid := R.IntgGuid,
        enabled := decide (R.Enabled = 1),
        created_or_updated_time := R.CreatedOrUpdatedTime,
        created_or_updated_by := R.CreatedOrUpdatedBy,
        type_name := R.TypeName, org_level := decide (R.IsOrg = 1) } := by
  unfold resourceLaceworkAlertChannelDatadogUpdate
  simp only [h, validateDatadog_of_singleton deps response R hR, hR]
  split_ifs
  · split <;> rfl
  · rfl

/-- Update without the delivery test: one remote call, no error. -/
theorem datadogUpdate_no_test (deps : Deps) (d : DatadogResourceData) (lacework : Client)
    (response : DatadogAlertChannelResponse) (R : DatadogAlertChannel)
    (h : lacework.UpdateDatadogAlertChannel (datadogUpdatePayload deps d) = .ok response)
    (hR : response.Data = [R]) (ht : d.test_integration = false) :
    (resourceLaceworkAlertChannelDatadogUpdate deps d lacework).calls =
      [Call.UpdateDatadogAlertChannel (datadogUpdatePayload deps d)] ∧
    (resourceLaceworkAlertChannelDatadogUpdate deps d lacework).err = none := by
  unfold resourceLaceworkAlertChannelDatadogUpdate
  simp only [h, validateDatadog_of_singleton deps response R hR, hR]
  simp [ht]

/-- Update with the delivery test: the submission, then the test, whose answer
is the returned error. -/
theorem datadogUpdate_test (deps : Deps) (d : DatadogResourceData) (lacework : Client)
    (response : DatadogAlertChannelResponse) (R : DatadogAlertChannel)
    (h : lacework.UpdateDatadogAlertChannel (datadogUpdatePayload deps d) = .ok response)
    (hR : response.Data = [R]) (ht : d.test_integration = true) :
    (resourceLaceworkAlertChannelDatadogUpdate deps d lacework).calls =
      [Call.UpdateDatadogAlertChannel (datadogUpdatePayload deps d), Call.Test d.Id] ∧
    (resourceLaceworkAlertChannelDatadogUpdate deps d lacework).err = lacework.Test d.Id := by
  unfold resourceLaceworkAlertChannelDatadogUpdate
  simp only [h, validateDatadog_of_singleton deps response R hR, hR]
  simp only [ht, if_true]
  cases lacework.Test d.Id <;> simp

/-- The first remote call of Update is the submission of the payload. -/
theorem datadogUpdate_first_call (deps : Deps) (d : DatadogResourceData) (lacework : Client) :
    (resourceLaceworkAlertChannelDatadogUpdate deps d lacework).calls.head? =
      some (Call.UpdateDatadogAlertChannel (datadogUpdatePayload deps d)) := by
  unfold resourceLaceworkAlertChannelDatadogUpdate
  dsimp only
  split
  · rfl
  · split
    · rfl
    · split
      · rfl
      · split_ifs
        · split <;> rfl
        · rfl

/-- The read loop stops at the first record that carries the tracked identifier. -/
theorem datadogReadLoop_first (d : DatadogResourceData) (R : DatadogAlertChannel)
    (hR : R.IntgGuid = d.Id) (post : List DatadogAlertChannel) :
    ∀ pre : List DatadogAlertChannel, (∀ r ∈ pre, r.IntgGuid ≠ d.Id) →
    datadogReadLoop d (pre ++ R :: post) =
      some { d with
        name := R.Name, intg_guid := R.IntgGuid,
        enabled := decide (R.Enabled = 1),
        created_or_updated_time := R.CreatedOrUpdatedTime,
        created_or_updated_by := R.CreatedOrUpdatedBy,
        type_name := R.TypeName, org_level := decide (R.IsOrg = 1),
        datadog_site := R.Data.DatadogSite, datadog_service := R.Data.DatadogService } := by
  intro pre
  induction pre with
  | nil => intro _; simp [datadogReadLoop, hR]
  | cons r rest ih =>
    intro h
    have h1 : r.IntgGuid ≠ d.Id := h r (by simp)
    simp only [List.cons_append, datadogReadLoop, h1, if_false]
    exact ih (fun x hx => h x (by simp [hx]))

/-- The read loop finds nothing when no record carries the tracked identifier. -/
theorem datadogReadLoop_none (d : DatadogResourceData) (l : List DatadogAlertChannel)
    (h : ∀ r ∈ l, r.IntgGuid ≠ d.Id) : datadogReadLoop d l = none := by
  induction l with
  | nil => rfl
  | cons r rest ih =>
    have h1 : r.IntgGuid ≠ d.Id := h r (by simp)
    simp only [datadogReadLoop, h1, if_false]
    exact ih (fun x hx => h x (by simp [hx]))

/-- Read of a listing whose first record with the tracked identifier is `R`. -/
theorem datadogRead_found (d : DatadogResourceData) (lacework : Client)
    (response : DatadogAlertChannelResponse) (R : DatadogAlertChannel)
    (pre post : List DatadogAlertChannel)
    (h : lacework.GetDatadogAlertChannel d.Id = .ok response)
    (hl : response.Data = pre ++ R :: post) (hR : R.IntgGuid = d.Id)
    (hpre : ∀ r ∈ pre, r.IntgGuid ≠ d.Id) :
    (resourceLaceworkAlertChannelDatadogRead d lacework).d =
      { d with
        name := R.Name, intg_guid := R.IntgGuid,
        enabled := decide (R.Enabled = 1),
        created_or_updated_time := R.CreatedOrUpdatedTime,
        created_or_updated_by := R.CreatedOrUpdatedBy,
        type_name := R.TypeName, org_level := decide (R.IsOrg = 1),
        datadog_site := R.Data.DatadogSite, datadog_service := R.Data.DatadogService } ∧
    (resourceLaceworkAlertChannelDatadogRead d lacework).err = none := by
  unfold resourceLaceworkAlertChannelDatadogRead
  simp only [h, hl, datadogReadLoop_first d R hR post pre hpre]
  exact ⟨trivial, trivial⟩

/-- Read of a listing without the tracked identifier. -/
theorem datadogRead_absent (d : DatadogResourceData) (lacework : Client)
    (response : DatadogAlertChannelResponse)
    (h : lacework.GetDatadogAlertChannel d.Id = .ok response)
    (habs : ∀ r ∈ response.Data, r.IntgGuid ≠ d.Id) :
    resourceLaceworkAlertChannelDatadogRead d lacework =
      ⟨{ d with Id := "" }, [Call.GetDatadogAlertChannel d.Id], none⟩ := by
  unfold resourceLaceworkAlertChannelDatadogRead
  simp only [h, datadogReadLoop_none d response.Data habs]

theorem datadogListMsg_data (l : List DatadogAlertChannel) : ∀ msg : String,
    (datadogListMsg msg l).data =
      msg.data ++ (l.map fun r => (integrationLine r.IntgGuid r.Name).data).flatten := by
  induction l with
  | nil => intro msg; simp [datadogListMsg]
  | cons r rest ih => intro msg; simp [datadogListMsg, ih, String.data_append]

/-! ## New Relic operations: lemmas -/

theorem validateNewRelic_of_singleton (deps : Deps) (response : NewRelicAlertChannelResponse)
    (R : NewRelicAlertChannel) (hR : response.Data = [R]) :
    validateNewRelicAlertChannelResponse deps response = none :=
  (validateNewRelic_eq_none_iff deps response).mpr (by simp [hR])

/-- The local state `resourceLaceworkAlertChannelNewRelicCreate` leaves when the
service answers its submission with the single record `R`. -/
theorem newRelicCreate_state (deps : Deps) (d : NewRelicResourceData) (lacework : Client)
    (response : NewRelicAlertChannelResponse) (R : NewRelicAlertChannel)
    (h : lacework.CreateNewRelicAlertChannel (newRelicCreatePayload d) = .ok response)
    (hR : response.Data = [R]) :
    (resourceLaceworkAlertChannelNewRelicCreate deps d lacework).d =
      { d with
        Id := R.IntgGuid, name := R.Name, intg_guid := R.IntgGuid,
        enabled := decide (R.Enabled = 1),
        created_or_updated_time := R.CreatedOrUpdatedTime,
        created_or_updated_by := R.CreatedOrUpdatedBy,
        type_name := R.TypeName, org_level := decide (R.IsOrg = 1) } := by
  unfold resourceLaceworkAlertChannelNewRelicCreate
  simp only [h, validateNewRelic_of_singleton deps response R hR, hR]
  split_ifs
  · split <;> rfl
  · rfl

/-- Create without the delivery test: one remote call, no error. -/
theorem newRelicCreate_no_test (deps : Deps) (d : NewRelicResourceData) (lacework : Client)
    (response : NewRelicAlertChannelResponse) (R : NewRelicAlertChannel)
    (h : lacework.CreateNewRelicAlertChannel (newRelicCreatePayload d) = .ok response)
    (hR : response.Data = [R]) (ht : d.test_integration = false) :
    (resourceLaceworkAlertChannelNewRelicCreate deps d lacework).calls =
      [Call.CreateNewRelicAlertChannel (newRelicCreatePayload d)] ∧
    (resourceLaceworkAlertChannelNewRelicCreate deps d lacework).err = none := by
  unfold resourceLaceworkAlertChannelNewRelicCreate
  simp only [h, validateNewRelic_of_singleton deps response R hR, hR]
  simp [ht]

/-- The first remote call of Create is the submission of the payload. -/
theorem newRelicCreate_first_call (deps : Deps) (d : NewRelicResourceData) (lacework : Client) :
    (resourceLaceworkAlertChannelNewRelicCreate deps d lacework).calls.head? =
      some (Call.CreateNewRelicAlertChannel (newRelicCreatePayload d)) := by
  unfold resourceLaceworkAlertChannelNewRelicCreate
  dsimp only
  split
  · rfl
  · split
    · rfl
    · split
      · rfl
      · split_ifs
        · split <;> rfl
        · rfl

/-- The local state `resourceLaceworkAlertChannelNewRelicUpdate` leaves when the
service answers its submission with the single record `R`. -/
theorem newRelicUpdate_state (deps : Deps) (d : NewRelicResourceData) (lacework : Client)
    (response : NewRelicAlertChannelResponse) (R : NewRelicAlertChannel)
    (h : lacework.UpdateNewRelicAlertChannel (newRelicUpdatePayload d) = .ok response)
    (hR : response.Data = [R]) :
    (resourceLaceworkAlertChannelNewRelicUpdate deps d lacework).d =
      { d with
        name := R.Name, intg_guid := R.IntgGuid,
        enabled := decide (R.Enabled = 1),
        created_or_updated_time := R.CreatedOrUpdatedTime,
        created_or_updated_by := R.CreatedOrUpdatedBy,
        type_name := R.TypeName, org_level := decide (R.IsOrg = 1) } := by
  unfold resourceLaceworkAlertChannelNewRelicUpdate
  simp only [h, validateNewRelic_of_singleton deps response R hR, hR]
  split_ifs
  · split <;> rfl
  · rfl

/-- Update without the delivery test: one remote call, no error. -/
theorem newRelicUpdate_no_test (deps : Deps) (d : NewRelicResourceData) (lacework : Client)
    (response : NewRelicAlertChannelResponse) (R : NewRelicAlertChannel)
    (h : lacework.UpdateNewRelicAlertChannel (newRelicUpdatePayload d) = .ok response)
    (hR : response.Data = [R]) (ht : d.test_integration = false) :
    (resourceLaceworkAlertChannelNewRelicUpdate deps d lacework).calls =
      [Call.UpdateNewRelicAlertChannel (newRelicUpdatePayload d)] ∧
    (resourceLaceworkAlertChannelNewRelicUpdate deps d lacework).err = none := by
  unfold resourceLaceworkAlertChannelNewRelicUpdate
  simp only [h, validateNewRelic_of_singleton deps response R hR, hR]
  simp [ht]

/-- Update with the delivery test: the submission, then the test, whose answer
is the returned error. -/
theorem newRelicUpdate_test (deps : Deps) (d : NewRelicResourceData) (lacework : Client)
    (response : NewRelicAlertChannelResponse) (R : NewRelicAlertChannel)
    (h : lacework.UpdateNewRelicAlertChannel (newRelicUpdatePayload d) = .ok response)
    (hR : response.Data = [R]) (ht : d.test_integration = true) :
    (resourceLaceworkAlertChannelNewRelicUpdate deps d lacework).calls =
      [Call.UpdateNewRelicAlertChannel (newRelicUpdatePayload d), Call.Test d.Id] ∧
    (resourceLaceworkAlertChannelNewRelicUpdate deps d lacework).err = lacework.Test d.Id := by
  unfold resourceLaceworkAlertChannelNewRelicUpdate
  simp only [h, validateNewRelic_of_singleton deps response R hR, hR]
  simp only [ht, if_true]
  cases lacework.Test d.Id <;> simp

/-- The first remote call of Update is the submission of the payload. -/
theorem newRelicUpdate_first_call (deps : Deps) (d : NewRelicResourceData) (lacework : Client) :
    (resourceLaceworkAlertChannelNewRelicUpdate deps d lacework).calls.head? =
      some (Call.UpdateNewRelicAlertChannel (newRelicUpdatePayload d)) := by
  unfold resourceLaceworkAlertChannelNewRelicUpdate
  dsimp only
  split
  · rfl
  · split
    · rfl
    · split
      · rfl
      · split_ifs
        · split <;> rfl
        · rfl

/-- The read loop stops at the first record that carries the tracked identifier. -/
theorem newRelicReadLoop_first (d : NewRelicResourceData) (R : NewRelicAlertChannel)
    (hR : R.IntgGuid = d.Id) (post : List NewRelicAlertChannel) :
    ∀ pre : List NewRelicAlertChannel, (∀ r ∈ pre, r.IntgGuid ≠ d.Id) →
    newRelicReadLoop d (pre ++ R :: post) =
      some { d with
        name := R.Name, intg_guid := R.IntgGuid,
        enabled := decide (R.Enabled = 1),
        created_or_updated_time := R.CreatedOrUpdatedTime,
        created_or_updated_by := R.CreatedOrUpdatedBy,
        type_name := R.TypeName, org_level := decide (R.IsOrg = 1),
        account_id := R.Data.AccountID, insert_key := R.Data.InsertKey } := by
  intro pre
  induction pre with
  | nil => intro _; simp [newRelicReadLoop, hR]
  | cons r rest ih =>
    intro h
    have h1 : r.IntgGuid ≠ d.Id := h r (by simp)
    simp only [List.cons_append, newRelicReadLoop, h1, if_false]
    exact ih (fun x hx => h x (by simp [hx]))

/-- The read loop finds nothing when no record carries the tracked identifier. -/
theorem newRelicReadLoop_none (d : NewRelicResourceData) (l : List NewRelicAlertChannel)
    (h : ∀ r ∈ l, r.IntgGuid ≠ d.Id) : newRelicReadLoop d l = none := by
  induction l with
  | nil => rfl
  | cons r rest ih =>
    have h1 : r.IntgGuid ≠ d.Id := h r (by simp)
    simp only [newRelicReadLoop, h1, if_false]
    exact ih (fun x hx => h x (by simp [hx]))

/-- Read of a listing whose first record with the tracked identifier is `R`. -/
theorem newRelicRead_found (d : NewRelicResourceData) (lacework : Client)
    (response : NewRelicAlertChannelResponse) (R : NewRelicAlertChannel)
    (pre post : List NewRelicAlertChannel)
    (h : lacework.GetNewRelicAlertChannel d.Id = .ok response)
    (hl : response.Data = pre ++ R :: post) (hR : R.IntgGuid = d.Id)
    (hpre : ∀ r ∈ pre, r.IntgGuid ≠ d.Id) :
    (resourceLaceworkAlertChannelNewRelicRead d lacework).d =
      { d with
        name := R.Name, intg_guid := R.IntgGuid,
        enabled := decide (R.Enabled = 1),
        created_or_updated_time := R.CreatedOrUpdatedTime,
        created_or_updated_by := R.CreatedOrUpdatedBy,
        type_name := R.TypeName, org_level := decide (R.IsOrg = 1),
        account_id := R.Data.AccountID, insert_key := R.Data.InsertKey } ∧
    (resourceLaceworkAlertChannelNewRelicRead d lacework).err = none := by
  unfold resourceLaceworkAlertChannelNewRelicRead
  simp only [h, hl, newRelicReadLoop_first d R hR post pre hpre]
  exact ⟨trivial, trivial⟩

/-- Read of a listing without the tracked identifier. -/
theorem newRelicRead_absent (d : NewRelicResourceData) (lacework : Client)
    (response : NewRelicAlertChannelResponse)
    (h : lacework.GetNewRelicAlertChannel d.Id = .ok response)
    (habs : ∀ r ∈ response.Data, r.IntgGuid ≠ d.Id) :
    resourceLaceworkAlertChannelNewRelicRead d lacework =
      ⟨{ d with Id := "" }, [Call.GetNewRelicAlertChannel d.Id], none⟩ := by
  unfold resourceLaceworkAlertChannelNewRelicRead
  simp only [h, newRelicReadLoop_none d response.Data habs]

theorem newRelicListMsg_data (l : List NewRelicAlertChannel) : ∀ msg : String,
    (newRelicListMsg msg l).data =
      msg.data ++ (l.map fun r => (integrationLine r.IntgGuid r.Name).data).flatten := by
  induction l with
  | nil => intro msg; simp [newRelicListMsg]
  | cons r rest ih => intro msg; simp [newRelicListMsg, ih, String.data_append]

/-! ## More than one record: what the error message holds -/

/-- The format that the more-than-one branch hands to `fmt.Errorf` holds one
line per record, in the order of the envelope, between the opening text and
`unexpectedBehaviorMsg()`; `Errorf` returns it unchanged when it has no `%`. -/
theorem validateDatadog_more_than_one_format (deps : Deps)
    (response : DatadogAlertChannelResponse) (h : 2 ≤ response.Data.length) :
    validateDatadogAlertChannelResponse deps response =
      some (Errorf (datadogListMsg moreThanOneMsg response.Data ++ deps.unexpectedBehaviorMsg)) ∧
    (datadogListMsg moreThanOneMsg response.Data ++ deps.unexpectedBehaviorMsg).data =
      moreThanOneMsg.data
        ++ (response.Data.map fun r => (integrationLine r.IntgGuid r.Name).data).flatten
        ++ deps.unexpectedBehaviorMsg.data ∧
    ('%' ∉ (datadogListMsg moreThanOneMsg response.Data ++ deps.unexpectedBehaviorMsg).data →
      validateDatadogAlertChannelResponse deps response =
        some (datadogListMsg moreThanOneMsg response.Data ++ deps.unexpectedBehaviorMsg)) := by
  have hv : validateDatadogAlertChannelResponse deps response =
      some (Errorf (datadogListMsg moreThanOneMsg response.Data ++ deps.unexpectedBehaviorMsg)) := by
    unfold validateDatadogAlertChannelResponse
    rw [if_neg (by omega), if_pos (by omega)]
  refine ⟨hv, ?_, ?_⟩
  · rw [String.data_append, datadogListMsg_data]
  · intro hp
    rw [hv, Errorf_of_no_percent _ hp]

theorem validateDatadog_more_than_one_format_witness :
    validateDatadogAlertChannelResponse sampleDeps
      ⟨[sampleDatadogRecord "A" "first" 1, sampleDatadogRecord "B" "second" 1]⟩ =
    some "\nThere is more that one integration inside the server response data.\n\nList of integrations:\n\tA: first\n\tB: second\n\nThis was an unexpected behavior, please report this issue.\n" := by
  rw [(validateDatadog_more_than_one_format sampleDeps
    ⟨[sampleDatadogRecord "A" "first" 1, sampleDatadogRecord "B" "second" 1]⟩
    (by decide)).2.2 (by decide)]
  decide

/-- C5 (failing input): for the two records `A` named `%d` and `B` named `b`
both validators return an error whose message has `%!d(MISSING)` where the name
of `A` should be, so the line of `A` is not in the message. -/
theorem validate_more_than_one_percent_in_name :
    validateDatadogAlertChannelResponse sampleDeps
        ⟨[sampleDatadogRecord "A" "%d" 1, sampleDatadogRecord "B" "b" 1]⟩ =
      some "\nThere is more that one integration inside the server response data.\n\nList of integrations:\n\tA: %!d(MISSING)\n\tB: b\n\nThis was an unexpected behavior, please report this issue.\n" ∧
    validateNewRelicAlertChannelResponse sampleDeps
        ⟨[sampleNewRelicRecord "A" "%d" 1, sampleNewRelicRecord "B" "b" 1]⟩ =
      some "\nThere is more that one integration inside the server response data.\n\nList of integrations:\n\tA: %!d(MISSING)\n\tB: b\n\nThis was an unexpected behavior, please report this issue.\n" ∧
    integrationLine "A" "%d" = "\tA: %d\n" ∧
    ¬ ((integrationLine "A" "%d").data <:+: "\nThere is more that one integration inside the server response data.\n\nList of integrations:\n\tA: %!d(MISSING)\n\tB: b\n\nThis was an unexpected behavior, please report this issue.\n".data) := by
  refine ⟨by decide, by decide, by decide, by decide⟩

/-! ## Update and the delivery test -/

/-- C2 (counterexample): a Datadog Update with `test_integration = true`, whose
submission is answered with exactly one record and whose delivery test fails,
returns the test failure and has issued no delete for the tracked identifier. -/
theorem update_failed_test_no_delete_example :
    (sampleDatadogState "guid-1" "com" true true).test_integration = true ∧
    (sampleClient [sampleDatadogRecord "guid-1" "datadog-alerts" 1] []
        (some "test failed")).UpdateDatadogAlertChannel
      (datadogUpdatePayload sampleDeps (sampleDatadogState "guid-1" "com" true true)) =
      .ok ⟨[sampleDatadogRecord "guid-1" "datadog-alerts" 1]⟩ ∧
    (sampleClient [sampleDatadogRecord "guid-1" "datadog-alerts" 1] []
        (some "test failed")).Test "guid-1" = some "test failed" ∧
    (resourceLaceworkAlertChannelDatadogUpdate sampleDeps
      (sampleDatadogState "guid-1" "com" true true)
      (sampleClient [sampleDatadogRecord "guid-1" "datadog-alerts" 1] []
        (some "test failed"))).err = some "test failed" ∧
    Call.Delete "guid-1" ∉
      (resourceLaceworkAlertChannelDatadogUpdate sampleDeps
        (sampleDatadogState "guid-1" "com" true true)
        (sampleClient [sampleDatadogRecord "guid-1" "datadog-alerts" 1] []
          (some "test failed"))).calls := by
  refine ⟨rfl, rfl, rfl, by decide, by decide⟩

/-- C2 (amended): an Update (Datadog or New Relic) with `test_integration = true`,
whose submission is answered with exactly one record and whose delivery test
fails with `e`, returns `e`; its remote calls are the submission and the test,
and no delete is issued. -/
theorem update_failed_test_returns_error_without_delete (deps : Deps) :
    (∀ (d : DatadogResourceData) (lacework : Client)
        (response : DatadogAlertChannelResponse) (e : String),
      d.test_integration = true →
      lacework.UpdateDatadogAlertChannel (datadogUpdatePayload deps d) = .ok response →
      response.Data.length = 1 →
      lacework.Test d.Id = some e →
      (resourceLaceworkAlertChannelDatadogUpdate deps d lacework).err = some e ∧
      (resourceLaceworkAlertChannelDatadogUpdate deps d lacework).calls =
        [Call.UpdateDatadogAlertChannel (datadogUpdatePayload deps d), Call.Test d.Id] ∧
      ∀ guid, Call.Delete guid ∉ (resourceLaceworkAlertChannelDatadogUpdate deps d lacework).calls) ∧
    (∀ (d : NewRelicResourceData) (lacework : Client)
        (response : NewRelicAlertChannelResponse) (e : String),
      d.test_integration = true →
      lacework.UpdateNewRelicAlertChannel (newRelicUpdatePayload d) = .ok response →
      response.Data.length = 1 →
      lacework.Test d.Id = some e →
      (resourceLaceworkAlertChannelNewRelicUpdate deps d lacework).err = some e ∧
      (resourceLaceworkAlertChannelNewRelicUpdate deps d lacework).calls =
        [Call.UpdateNewRelicAlertChannel (newRelicUpdatePayload d), Call.Test d.Id] ∧
      ∀ guid, Call.Delete guid ∉ (resourceLaceworkAlertChannelNewRelicUpdate deps d lacework).calls) := by
  constructor
  · intro d lacework response e ht h hlen he
    obtain ⟨R, hR⟩ := List.length_eq_one.mp hlen
    obtain ⟨hc, herr⟩ := datadogUpdate_test deps d lacework response R h hR ht
    refine ⟨by rw [herr, he], hc, ?_⟩
    intro guid
    rw [hc]
    simp
  · intro d lacework response e ht h hlen he
    obtain ⟨R, hR⟩ := List.length_eq_one.mp hlen
    obtain ⟨hc, herr⟩ := newRelicUpdate_test deps d lacework response R h hR ht
    refine ⟨by rw [herr, he], hc, ?_⟩
    intro guid
    rw [hc]
    simp

theorem update_failed_test_returns_error_without_delete_witness :
    (resourceLaceworkAlertChannelNewRelicUpdate sampleDeps
      (sampleNewRelicState "guid-2" true true)
      (sampleClient [] [sampleNewRelicRecord "guid-2" "newrelic-alerts" 1]
        (some "test failed"))).err = some "test failed" ∧
    (resourceLaceworkAlertChannelDatadogUpdate sampleDeps
      (sampleDatadogState "guid-1" "com" true true)
      (sampleClient [sampleDatadogRecord "guid-1" "datadog-alerts" 1] []
        (some "test failed"))).calls =
      [Call.UpdateDatadogAlertChannel
        (datadogUpdatePayload sampleDeps (sampleDatadogState "guid-1" "com" true true)),
       Call.Test "guid-1"] :=
  ⟨((update_failed_test_returns_error_without_delete sampleDeps).2
      (sampleNewRelicState "guid-2" true true)
      (sampleClient [] [sampleNewRelicRecord "guid-2" "newrelic-alerts" 1] (some "test failed"))
      ⟨[sampleNewRelicRecord "guid-2" "newrelic-alerts" 1]⟩ "test failed" rfl rfl rfl rfl).1,
   ((update_failed_test_returns_error_without_delete sampleDeps).1
      (sampleDatadogState "guid-1" "com" true true)
      (sampleClient [sampleDatadogRecord "guid-1" "datadog-alerts" 1] [] (some "test failed"))
      ⟨[sampleDatadogRecord "guid-1" "datadog-alerts" 1]⟩ "test failed" rfl rfl rfl rfl).2.1⟩

/-! ## Create and the allow-lists -/

/-- C3 (counterexample): Create on a configuration with `datadog_site =
"invalid-region"`, a value outside the allow-list, invokes
`CreateDatadogAlertChannel` and returns no error. -/
theorem create_invalid_site_reaches_transport_example :
    ¬ ("invalid-region" = sampleDeps.DatadogSiteEu ∨
        "invalid-region" = sampleDeps.DatadogSiteCom) ∧
    (resourceLaceworkAlertChannelDatadogCreate sampleDeps
      (sampleDatadogState "" "invalid-region" true false)
      (sampleClient [sampleDatadogRecord "guid-1" "datadog-alerts" 1] [] none)).calls =
      [Call.CreateDatadogAlertChannel
        (datadogCreatePayload sampleDeps (sampleDatadogState "" "invalid-region" true false))] ∧
    (resourceLaceworkAlertChannelDatadogCreate sampleDeps
      (sampleDatadogState "" "invalid-region" true false)
      (sampleClient [sampleDatadogRecord "guid-1" "datadog-alerts" 1] [] none)).err = none := by
  refine ⟨by decide, by decide, by decide⟩

/-- C3 (amended): for a configuration whose `datadog_site` or `datadog_service`
is outside its allow-list, the ValidateFunc of the offending field returns an
error; Create itself makes no such check: its first remote call is
`CreateDatadogAlertChannel` with the payload it built, and it returns `nil`
when that call is answered with exactly one record and `test_integration` is
false. -/
theorem create_makes_no_allow_list_check (deps : Deps) (d : DatadogResourceData)
    (lacework : Client)
    (h : ¬ (d.datadog_site = deps.DatadogSiteEu ∨ d.datadog_site = deps.DatadogSiteCom) ∨
      ¬ (d.datadog_service = deps.DatadogServiceLogsDetails ∨
          d.datadog_service = deps.DatadogServiceLogsSummary ∨
          d.datadog_service = deps.DatadogServiceEventsSummary)) :
    ((datadogSiteValidateFunc deps d.datadog_site "datadog_site").2 ≠ [] ∨
      (datadogServiceValidateFunc deps d.datadog_service "datadog_service").2 ≠ []) ∧
    (resourceLaceworkAlertChannelDatadogCreate deps d lacework).calls.head? =
      some (Call.CreateDatadogAlertChannel (datadogCreatePayload deps d)) ∧
    (∀ response, lacework.CreateDatadogAlertChannel (datadogCreatePayload deps d) = .ok response →
      response.Data.length = 1 → d.test_integration = false →
      (resourceLaceworkAlertChannelDatadogCreate deps d lacework).err = none) ∧
    (¬ (d.datadog_site = deps.DatadogSiteEu ∨ d.datadog_site = deps.DatadogSiteCom) →
      (datadogSiteValidateFunc deps d.datadog_site "datadog_site").2 ≠ []) ∧
    (¬ (d.datadog_service = deps.DatadogServiceLogsDetails ∨
          d.datadog_service = deps.DatadogServiceLogsSummary ∨
          d.datadog_service = deps.DatadogServiceEventsSummary) →
      (datadogServiceValidateFunc deps d.datadog_service "datadog_service").2 ≠ []) := by
  refine ⟨?_, datadogCreate_first_call deps d lacework, ?_,
    fun hs => by simp [datadogSiteValidateFunc, hs],
    fun hs => by simp [datadogServiceValidateFunc, hs]⟩
  · rcases h with h | h
    · left
      simp [datadogSiteValidateFunc, h]
    · right
      simp [datadogServiceValidateFunc, h]
  · intro response hc hlen ht
    obtain ⟨R, hR⟩ := List.length_eq_one.mp hlen
    exact (datadogCreate_no_test deps d lacework response R hc hR ht).2

theorem create_makes_no_allow_list_check_witness :
    ((datadogSiteValidateFunc sampleDeps "invalid-region" "datadog_site").2 ≠ [] ∨
      (datadogServiceValidateFunc sampleDeps "Logs Detail" "datadog_service").2 ≠ []) ∧
    (resourceLaceworkAlertChannelDatadogCreate sampleDeps
      (sampleDatadogState "" "invalid-region" true false)
      (sampleClient [sampleDatadogRecord "guid-1" "datadog-alerts" 1] [] none)).calls.head? =
      some (Call.CreateDatadogAlertChannel
        (datadogCreatePayload sampleDeps (sampleDatadogState "" "invalid-region" true false))) :=
  ⟨(create_makes_no_allow_list_check sampleDeps
      (sampleDatadogState "" "invalid-region" true false)
      (sampleClient [sampleDatadogRecord "guid-1" "datadog-alerts" 1] [] none)
      (Or.inl (by decide))).1,
   (create_makes_no_allow_list_check sampleDeps
      (sampleDatadogState "" "invalid-region" true false)
      (sampleClient [sampleDatadogRecord "guid-1" "datadog-alerts" 1] [] none)
      (Or.inl (by decide))).2.1⟩

/-! ## Read of an identifier the listing does not hold -/

/-- C6: when the fetch succeeds and no record of the listing carries the tracked
identifier, Read (Datadog or New Relic) sets the tracked identifier to the
empty string, returns no error and leaves every other field of the local state
as it was. -/
theorem read_absent_clears_identifier_only :
    (∀ (d : DatadogResourceData) (lacework : Client) (response : DatadogAlertChannelResponse),
      lacework.GetDatadogAlertChannel d.Id = .ok response →
      (∀ r ∈ response.Data, r.IntgGuid ≠ d.Id) →
      (resourceLaceworkAlertChannelDatadogRead d lacework).d = { d with Id := "" } ∧
      (resourceLaceworkAlertChannelDatadogRead d lacework).err = none) ∧
    (∀ (d : NewRelicResourceData) (lacework : Client) (response : NewRelicAlertChannelResponse),
      lacework.GetNewRelicAlertChannel d.Id = .ok response →
      (∀ r ∈ response.Data, r.IntgGuid ≠ d.Id) →
      (resourceLaceworkAlertChannelNewRelicRead d lacework).d = { d with Id := "" } ∧
      (resourceLaceworkAlertChannelNewRelicRead d lacework).err = none) := by
  constructor
  · intro d lacework response h habs
    rw [datadogRead_absent d lacework response h habs]
    exact ⟨rfl, rfl⟩
  · intro d lacework response h habs
    rw [newRelicRead_absent d lacework response h habs]
    exact ⟨rfl, rfl⟩

theorem read_absent_clears_identifier_only_witness :
    (resourceLaceworkAlertChannelDatadogRead (sampleDatadogState "guid-1" "com" true true)
      (sampleClient [sampleDatadogRecord "guid-9" "other" 1] [] none)).d =
      { sampleDatadogState "guid-1" "com" true true with Id := "" } ∧
    (resourceLaceworkAlertChannelNewRelicRead (sampleNewRelicState "guid-2" true true)
      (sampleClient [] [] none)).err = none :=
  ⟨(read_absent_clears_identifier_only.1 (sampleDatadogState "guid-1" "com" true true)
      (sampleClient [sampleDatadogRecord "guid-9" "other" 1] [] none)
      ⟨[sampleDatadogRecord "guid-9" "other" 1]⟩ rfl (by decide)).1,
   (read_absent_clears_identifier_only.2 (sampleNewRelicState "guid-2" true true)
      (sampleClient [] [] none) ⟨[]⟩ rfl (by decide)).2⟩

/-! ## The enabled flag, from the server and to the server -/

/-- C7 (counterexample): a record whose server-side `Enabled` is 2, a nonzero
value, is projected by Create to `enabled = false`. -/
theorem create_enabled_two_projects_false_example :
    (sampleDatadogRecord "guid-1" "datadog-alerts" 2).Enabled ≠ 0 ∧
    (resourceLaceworkAlertChannelDatadogCreate sampleDeps
      (sampleDatadogState "" "com" true false)
      (sampleClient [sampleDatadogRecord "guid-1" "datadog-alerts" 2] [] none)).err = none ∧
    (resourceLaceworkAlertChannelDatadogCreate sampleDeps
      (sampleDatadogState "" "com" true false)
      (sampleClient [sampleDatadogRecord "guid-1" "datadog-alerts" 2] [] none)).d.enabled
      = false := by
  refine ⟨by decide, by decide, by decide⟩

/-- C7 (amended): for the record `R` that Create, Read or Update (Datadog or New
Relic) projects into the local state, the state's `enabled` is true if and
only if `R.Enabled` equals 1. -/
theorem projected_enabled_iff_enabled_eq_one (deps : Deps) :
    (∀ (d : DatadogResourceData) (lacework : Client)
        (response : DatadogAlertChannelResponse) (R : DatadogAlertChannel),
      lacework.CreateDatadogAlertChannel (datadogCreatePayload deps d) = .ok response →
      response.Data = [R] →
      ((resourceLaceworkAlertChannelDatadogCreate deps d lacework).d.enabled = true ↔
        R.Enabled = 1)) ∧
    (∀ (d : DatadogResourceData) (lacework : Client)
        (response : DatadogAlertChannelResponse) (R : DatadogAlertChannel)
        (pre post : List DatadogAlertChannel),
      lacework.GetDatadogAlertChannel d.Id = .ok response →
      response.Data = pre ++ R :: post → R.IntgGuid = d.Id →
      (∀ r ∈ pre, r.IntgGuid ≠ d.Id) →
      ((resourceLaceworkAlertChannelDatadogRead d lacework).d.enabled = true ↔
        R.Enabled = 1)) ∧
    (∀ (d : DatadogResourceData) (lacework : Client)
        (response : DatadogAlertChannelResponse) (R : DatadogAlertChannel),
      lacework.UpdateDatadogAlertChannel (datadogUpdatePayload deps d) = .ok response →
      response.Data = [R] →
      ((resourceLaceworkAlertChannelDatadogUpdate deps d lacework).d.enabled = true ↔
        R.Enabled = 1)) ∧
    (∀ (d : NewRelicResourceData) (lacework : Client)
        (response : NewRelicAlertChannelResponse) (R : NewRelicAlertChannel),
      lacework.CreateNewRelicAlertChannel (newRelicCreatePayload d) = .ok response →
      response.Data = [R] →
      ((resourceLaceworkAlertChannelNewRelicCreate deps d lacework).d.enabled = true ↔
        R.Enabled = 1)) ∧
    (∀ (d : NewRelicResourceData) (lacework : Client)
        (response : NewRelicAlertChannelResponse) (R : NewRelicAlertChannel)
        (pre post : List NewRelicAlertChannel),
      lacework.GetNewRelicAlertChannel d.Id = .ok response →
      response.Data = pre ++ R :: post → R.IntgGuid = d.Id →
      (∀ r ∈ pre, r.IntgGuid ≠ d.Id) →
      ((resourceLaceworkAlertChannelNewRelicRead d lacework).d.enabled = true ↔
        R.Enabled = 1)) ∧
    (∀ (d : NewRelicResourceData) (lacework : Client)
        (response : NewRelicAlertChannelResponse) (R : NewRelicAlertChannel),
      lacework.UpdateNewRelicAlertChannel (newRelicUpdatePayload d) = .ok response →
      response.Data = [R] →
      ((resourceLaceworkAlertChannelNewRelicUpdate deps d lacework).d.enabled = true ↔
        R.Enabled = 1)) := by
  refine ⟨?_, ?_, ?_, ?_, ?_, ?_⟩
  · intro d lacework response R h hR
    rw [datadogCreate_state deps d lacework response R h hR]
    simp
  · intro d lacework response R pre post h hl hR hpre
    rw [(datadogRead_found d lacework response R pre post h hl hR hpre).1]
    simp
  · intro d lacework response R h hR
    rw [datadogUpdate_state deps d lacework response R h hR]
    simp
  · intro d lacework response R h hR
    rw [newRelicCreate_state deps d lacework response R h hR]
    simp
  · intro d lacework response R pre post h hl hR hpre
    rw [(newRelicRead_found d lacework response R pre post h hl hR hpre).1]
    simp
  · intro d lacework response R h hR
    rw [newRelicUpdate_state deps d lacework response R h hR]
    simp

theorem projected_enabled_iff_enabled_eq_one_witness :
    ((resourceLaceworkAlertChannelDatadogCreate sampleDeps
        (sampleDatadogState "" "com" false false)
        (sampleClient [sampleDatadogRecord "guid-1" "datadog-alerts" 1] [] none)).d.enabled
        = true ↔ (sampleDatadogRecord "guid-1" "datadog-alerts" 1).Enabled = 1) ∧
    ((resourceLaceworkAlertChannelNewRelicRead (sampleNewRelicState "guid-2" true true)
        (sampleClient [] [sampleNewRelicRecord "guid-7" "other" 1,
          sampleNewRelicRecord "guid-2" "newrelic-alerts" 0] none)).d.enabled
        = true ↔ (sampleNewRelicRecord "guid-2" "newrelic-alerts" 0).Enabled = 1) :=
  ⟨(projected_enabled_iff_enabled_eq_one sampleDeps).1
      (sampleDatadogState "" "com" false false)
      (sampleClient [sampleDatadogRecord "guid-1" "datadog-alerts" 1] [] none)
      ⟨[sampleDatadogRecord "guid-1" "datadog-alerts" 1]⟩
      (sampleDatadogRecord "guid-1" "datadog-alerts" 1) rfl rfl,
   (projected_enabled_iff_enabled_eq_one sampleDeps).2.2.2.2.1
      (sampleNewRelicState "guid-2" true true)
      (sampleClient [] [sampleNewRelicRecord "guid-7" "other" 1,
        sampleNewRelicRecord "guid-2" "newrelic-alerts" 0] none)
      ⟨[sampleNewRelicRecord "guid-7" "other" 1,
        sampleNewRelicRecord "guid-2" "newrelic-alerts" 0]⟩
      (sampleNewRelicRecord "guid-2" "newrelic-alerts" 0)
      [sampleNewRelicRecord "guid-7" "other" 1] [] rfl rfl rfl (by decide)⟩

/-- C8: the payload that Create and Update (Datadog or New Relic) submit has
`Enabled = 1` when the declared `enabled` is true and `Enabled = 0` when it is
false; the payload of Update also carries the tracked identifier as
`IntgGuid`. -/
theorem submitted_payload_enabled_and_guid (deps : Deps) (dd : DatadogResourceData)
    (nr : NewRelicResourceData) (lacework : Client) :
    ((resourceLaceworkAlertChannelDatadogCreate deps dd lacework).calls.head? =
        some (Call.CreateDatadogAlertChannel (datadogCreatePayload deps dd)) ∧
      (datadogCreatePayload deps dd).Enabled = (if dd.enabled = true then 1 else 0)) ∧
    ((resourceLaceworkAlertChannelDatadogUpdate deps dd lacework).calls.head? =
        some (Call.UpdateDatadogAlertChannel (datadogUpdatePayload deps dd)) ∧
      (datadogUpdatePayload deps dd).Enabled = (if dd.enabled = true then 1 else 0) ∧
      (datadogUpdatePayload deps dd).IntgGuid = dd.Id) ∧
    ((resourceLaceworkAlertChannelNewRelicCreate deps nr lacework).calls.head? =
        some (Call.CreateNewRelicAlertChannel (newRelicCreatePayload nr)) ∧
      (newRelicCreatePayload nr).Enabled = (if nr.enabled = true then 1 else 0)) ∧
    ((resourceLaceworkAlertChannelNewRelicUpdate deps nr lacework).calls.head? =
        some (Call.UpdateNewRelicAlertChannel (newRelicUpdatePayload nr)) ∧
      (newRelicUpdatePayload nr).Enabled = (if nr.enabled = true then 1 else 0) ∧
      (newRelicUpdatePayload nr).IntgGuid = nr.Id) := by
  refine ⟨⟨datadogCreate_first_call deps dd lacework, ?_⟩,
    ⟨datadogUpdate_first_call deps dd lacework, ?_, ?_⟩,
    ⟨newRelicCreate_first_call deps nr lacework, ?_⟩,
    ⟨newRelicUpdate_first_call deps nr lacework, ?_, ?_⟩⟩
  · cases h : dd.enabled <;> simp [datadogCreatePayload, NewDatadogAlertChannel, h]
  · cases h : dd.enabled <;> simp [datadogUpdatePayload, NewDatadogAlertChannel, h]
  · simp [datadogUpdatePayload]
  · cases h : nr.enabled <;> simp [newRelicCreatePayload, NewNewRelicAlertChannel, h]
  · cases h : nr.enabled <;> simp [newRelicUpdatePayload, NewNewRelicAlertChannel, h]
  · simp [newRelicUpdatePayload]

/-- C9: a Create or an Update (Datadog or New Relic) with `test_integration =
false`, whose submission is answered with exactly one record, makes the
submission as its only remote call, so neither a test nor a delete, and
returns no error. -/
theorem no_test_flag_single_call_success (deps : Deps) :
    (∀ (d : DatadogResourceData) (lacework : Client) (response : DatadogAlertChannelResponse),
      d.test_integration = false →
      lacework.CreateDatadogAlertChannel (datadogCreatePayload deps d) = .ok response →
      response.Data.length = 1 →
      (resourceLaceworkAlertChannelDatadogCreate deps d lacework).err = none ∧
      (resourceLaceworkAlertChannelDatadogCreate deps d lacework).calls =
        [Call.CreateDatadogAlertChannel (datadogCreatePayload deps d)] ∧
      ∀ guid, Call.Test guid ∉ (resourceLaceworkAlertChannelDatadogCreate deps d lacework).calls ∧
        Call.Delete guid ∉ (resourceLaceworkAlertChannelDatadogCreate deps d lacework).calls) ∧
    (∀ (d : DatadogResourceData) (lacework : Client) (response : DatadogAlertChannelResponse),
      d.test_integration = false →
      lacework.UpdateDatadogAlertChannel (datadogUpdatePayload deps d) = .ok response →
      response.Data.length = 1 →
      (resourceLaceworkAlertChannelDatadogUpdate deps d lacework).err = none ∧
      (resourceLaceworkAlertChannelDatadogUpdate deps d lacework).calls =
        [Call.UpdateDatadogAlertChannel (datadogUpdatePayload deps d)] ∧
      ∀ guid, Call.Test guid ∉ (resourceLaceworkAlertChannelDatadogUpdate deps d lacework).calls ∧
        Call.Delete guid ∉ (resourceLaceworkAlertChannelDatadogUpdate deps d lacework).calls) ∧
    (∀ (d : NewRelicResourceData) (lacework : Client) (response : NewRelicAlertChannelResponse),
      d.test_integration = false →
      lacework.CreateNewRelicAlertChannel (newRelicCreatePayload d) = .ok response →
      response.Data.length = 1 →
      (resourceLaceworkAlertChannelNewRelicCreate deps d lacework).err = none ∧
      (resourceLaceworkAlertChannelNewRelicCreate deps d lacework).calls =
        [Call.CreateNewRelicAlertChannel (newRelicCreatePayload d)] ∧
      ∀ guid, Call.Test guid ∉ (resourceLaceworkAlertChannelNewRelicCreate deps d lacework).calls ∧
        Call.Delete guid ∉ (resourceLaceworkAlertChannelNewRelicCreate deps d lacework).calls) ∧
    (∀ (d : NewRelicResourceData) (lacework : Client) (response : NewRelicAlertChannelResponse),
      d.test_integration = false →
      lacework.UpdateNewRelicAlertChannel (newRelicUpdatePayload d) = .ok response →
      response.Data.length = 1 →
      (resourceLaceworkAlertChannelNewRelicUpdate deps d lacework).err = none ∧
      (resourceLaceworkAlertChannelNewRelicUpdate deps d lacework).calls =
        [Call.UpdateNewRelicAlertChannel (newRelicUpdatePayload d)] ∧
      ∀ guid, Call.Test guid ∉ (resourceLaceworkAlertChannelNewRelicUpdate deps d lacework).calls ∧
        Call.Delete guid ∉ (resourceLaceworkAlertChannelNewRelicUpdate deps d lacework).calls) := by
  refine ⟨?_, ?_, ?_, ?_⟩
  · intro d lacework response ht h hlen
    obtain ⟨R, hR⟩ := List.length_eq_one.mp hlen
    obtain ⟨hc, he⟩ := datadogCreate_no_test deps d lacework response R h hR ht
    refine ⟨he, hc, fun guid => ?_⟩
    rw [hc]
    simp
  · intro d lacework response ht h hlen
    obtain ⟨R, hR⟩ := List.length_eq_one.mp hlen
    obtain ⟨hc, he⟩ := datadogUpdate_no_test deps d lacework response R h hR ht
    refine ⟨he, hc, fun guid => ?_⟩
    rw [hc]
    simp
  · intro d lacework response ht h hlen
    obtain ⟨R, hR⟩ := List.length_eq_one.mp hlen
    obtain ⟨hc, he⟩ := newRelicCreate_no_test deps d lacework response R h hR ht
    refine ⟨he, hc, fun guid => ?_⟩
    rw [hc]
    simp
  · intro d lacework response ht h hlen
    obtain ⟨R, hR⟩ := List.length_eq_one.mp hlen
    obtain ⟨hc, he⟩ := newRelicUpdate_no_test deps d lacework response R h hR ht
    refine ⟨he, hc, fun guid => ?_⟩
    rw [hc]
    simp

theorem no_test_flag_single_call_success_witness :
    (resourceLaceworkAlertChannelDatadogUpdate sampleDeps
      (sampleDatadogState "guid-1" "com" true false)
      (sampleClient [sampleDatadogRecord "guid-1" "datadog-alerts" 1] []
        (some "test failed"))).err = none ∧
    (resourceLaceworkAlertChannelNewRelicCreate sampleDeps
      (sampleNewRelicState "" true false)
      (sampleClient [] [sampleNewRelicRecord "guid-2" "newrelic-alerts" 1]
        (some "test failed"))).err = none :=
  ⟨((no_test_flag_single_call_success sampleDeps).2.1
      (sampleDatadogState "guid-1" "com" true false)
      (sampleClient [sampleDatadogRecord "guid-1" "datadog-alerts" 1] [] (some "test failed"))
      ⟨[sampleDatadogRecord "guid-1" "datadog-alerts" 1]⟩ rfl rfl rfl).1,
   ((no_test_flag_single_call_success sampleDeps).2.2.1
      (sampleNewRelicState "" true false)
      (sampleClient [] [sampleNewRelicRecord "guid-2" "newrelic-alerts" 1] (some "test failed"))
      ⟨[sampleNewRelicRecord "guid-2" "newrelic-alerts" 1]⟩ rfl rfl rfl).1⟩

/-! ## Read after Create -/

/-- C10: after a successful Create whose response record is `R`, a Read against
a listing that contains `R` unchanged (identifiers being unique, no other
record of the listing carries the identifier of `R`) returns no error and
leaves the tracked identifier and the fields `name`, `intg_guid`, `enabled`,
`created_or_updated_time`, `created_or_updated_by`, `type_name`, `org_level`
as Create left them; only the channel-specific echoed fields are rewritten
(Datadog and New Relic). -/
theorem read_after_create_keeps_projection (deps : Deps) :
    (∀ (d : DatadogResourceData) (lacework lacework2 : Client)
        (response listing : DatadogAlertChannelResponse) (R : DatadogAlertChannel),
      lacework.CreateDatadogAlertChannel (datadogCreatePayload deps d) = .ok response →
      response.Data = [R] →
      (resourceLaceworkAlertChannelDatadogCreate deps d lacework).err = none →
      lacework2.GetDatadogAlertChannel
        (resourceLaceworkAlertChannelDatadogCreate deps d lacework).d.Id = .ok listing →
      R ∈ listing.Data →
      (∀ r ∈ listing.Data, r.IntgGuid = R.IntgGuid → r = R) →
      (resourceLaceworkAlertChannelDatadogRead
        (resourceLaceworkAlertChannelDatadogCreate deps d lacework).d lacework2).err = none ∧
      (resourceLaceworkAlertChannelDatadogRead
        (resourceLaceworkAlertChannelDatadogCreate deps d lacework).d lacework2).d =
        { (resourceLaceworkAlertChannelDatadogCreate deps d lacework).d with
          datadog_site := R.Data.DatadogSite, datadog_service := R.Data.DatadogService } ∧
      (resourceLaceworkAlertChannelDatadogRead
        (resourceLaceworkAlertChannelDatadogCreate deps d lacework).d lacework2).d.Id =
        (resourceLaceworkAlertChannelDatadogCreate deps d lacework).d.Id ∧
      (resourceLaceworkAlertChannelDatadogRead
        (resourceLaceworkAlertChannelDatadogCreate deps d lacework).d lacework2).d.name =
        (resourceLaceworkAlertChannelDatadogCreate deps d lacework).d.name ∧
      (resourceLaceworkAlertChannelDatadogRead
        (resourceLaceworkAlertChannelDatadogCreate deps d lacework).d lacework2).d.intg_guid =
        (resourceLaceworkAlertChannelDatadogCreate deps d lacework).d.intg_guid ∧
      (resourceLaceworkAlertChannelDatadogRead
        (resourceLaceworkAlertChannelDatadogCreate deps d lacework).d lacework2).d.enabled =
        (resourceLaceworkAlertChannelDatadogCreate deps d lacework).d.enabled ∧
      (resourceLaceworkAlertChannelDatadogRead
        (resourceLaceworkAlertChannelDatadogCreate deps d lacework).d lacework2).d.created_or_updated_time =
        (resourceLaceworkAlertChannelDatadogCreate deps d lacework).d.created_or_updated_time ∧
      (resourceLaceworkAlertChannelDatadogRead
        (resourceLaceworkAlertChannelDatadogCreate deps d lacework).d lacework2).d.created_or_updated_by =
        (resourceLaceworkAlertChannelDatadogCreate deps d lacework).d.created_or_updated_by ∧
      (resourceLaceworkAlertChannelDatadogRead
        (resourceLaceworkAlertChannelDatadogCreate deps d lacework).d lacework2).d.type_name =
        (resourceLaceworkAlertChannelDatadogCreate deps d lacework).d.type_name ∧
      (resourceLaceworkAlertChannelDatadogRead
        (resourceLaceworkAlertChannelDatadogCreate deps d lacework).d lacework2).d.org_level =
        (resourceLaceworkAlertChannelDatadogCreate deps d lacework).d.org_level) ∧
    (∀ (d : NewRelicResourceData) (lacework lacework2 : Client)
        (response listing : NewRelicAlertChannelResponse) (R : NewRelicAlertChannel),
      lacework.CreateNewRelicAlertChannel (newRelicCreatePayload d) = .ok response →
      response.Data = [R] →
      (resourceLaceworkAlertChannelNewRelicCreate deps d lacework).err = none →
      lacework2.GetNewRelicAlertChannel
        (resourceLaceworkAlertChannelNewRelicCreate deps d lacework).d.Id = .ok listing →
      R ∈ listing.Data →
      (∀ r ∈ listing.Data, r.IntgGuid = R.IntgGuid → r = R) →
      (resourceLaceworkAlertChannelNewRelicRead
        (resourceLaceworkAlertChannelNewRelicCreate deps d lacework).d lacework2).err = none ∧
      (resourceLaceworkAlertChannelNewRelicRead
        (resourceLaceworkAlertChannelNewRelicCreate deps d lacework).d lacework2).d =
        { (resourceLaceworkAlertChannelNewRelicCreate deps d lacework).d with
          account_id := R.Data.AccountID, insert_key := R.Data.InsertKey } ∧
      (resourceLaceworkAlertChannelNewRelicRead
        (resourceLaceworkAlertChannelNewRelicCreate deps d lacework).d lacework2).d.Id =
        (resourceLaceworkAlertChannelNewRelicCreate deps d lacework).d.Id ∧
      (resourceLaceworkAlertChannelNewRelicRead
        (resourceLaceworkAlertChannelNewRelicCreate deps d lacework).d lacework2).d.name =
        (resourceLaceworkAlertChannelNewRelicCreate deps d lacework).d.name ∧
      (resourceLaceworkAlertChannelNewRelicRead
        (resourceLaceworkAlertChannelNewRelicCreate deps d lacework).d lacework2).d.intg_guid =
        (resourceLaceworkAlertChannelNewRelicCreate deps d lacework).d.intg_guid ∧
      (resourceLaceworkAlertChannelNewRelicRead
        (resourceLaceworkAlertChannelNewRelicCreate deps d lacework).d lacework2).d.enabled =
        (resourceLaceworkAlertChannelNewRelicCreate deps d lacework).d.enabled ∧
      (resourceLaceworkAlertChannelNewRelicRead
        (resourceLaceworkAlertChannelNewRelicCreate deps d lacework).d lacework2).d.created_or_updated_time =
        (resourceLaceworkAlertChannelNewRelicCreate deps d lacework).d.created_or_updated_time ∧
      (resourceLaceworkAlertChannelNewRelicRead
        (resourceLaceworkAlertChannelNewRelicCreate deps d lacework).d lacework2).d.created_or_updated_by =
        (resourceLaceworkAlertChannelNewRelicCreate deps d lacework).d.created_or_updated_by ∧
      (resourceLaceworkAlertChannelNewRelicRead
        (resourceLaceworkAlertChannelNewRelicCreate deps d lacework).d lacework2).d.type_name =
        (resourceLaceworkAlertChannelNewRelicCreate deps d lacework).d.type_name ∧
      (resourceLaceworkAlertChannelNewRelicRead
        (resourceLaceworkAlertChannelNewRelicCreate deps d lacework).d lacework2).d.org_level =
        (resourceLaceworkAlertChannelNewRelicCreate deps d lacework).d.org_level) := by
  constructor
  · intro d lacework lacework2 response listing R h hR _ hget hmem huniq
    have hs := datadogCreate_state deps d lacework response R h hR
    have hid : R.IntgGuid = (resourceLaceworkAlertChannelDatadogCreate deps d lacework).d.Id := by
      rw [hs]
    obtain ⟨pre, post, hl, hfirst⟩ := List.eq_append_cons_of_mem hmem
    have hpre : ∀ r ∈ pre, r.IntgGuid ≠ R.IntgGuid := by
      intro r hr hguid
      have hrl : r ∈ listing.Data := by
        rw [hl]
        exact List.mem_append_left _ hr
      exact hfirst (huniq r hrl hguid ▸ hr)
    obtain ⟨h1, h2⟩ := datadogRead_found _ lacework2 listing R pre post hget hl hid
      (fun r hr => hid ▸ hpre r hr)
    refine ⟨h2, by rw [h1, hs], ?_⟩
    rw [h1]
    exact ⟨rfl, by rw [hs], by rw [hs], by rw [hs], by rw [hs], by rw [hs], by rw [hs],
      by rw [hs]⟩
  · intro d lacework lacework2 response listing R h hR _ hget hmem huniq
    have hs := newRelicCreate_state deps d lacework response R h hR
    have hid : R.IntgGuid = (resourceLaceworkAlertChannelNewRelicCreate deps d lacework).d.Id := by
      rw [hs]
    obtain ⟨pre, post, hl, hfirst⟩ := List.eq_append_cons_of_mem hmem
    have hpre : ∀ r ∈ pre, r.IntgGuid ≠ R.IntgGuid := by
      intro r hr hguid
      have hrl : r ∈ listing.Data := by
        rw [hl]
        exact List.mem_append_left _ hr
      exact hfirst (huniq r hrl hguid ▸ hr)
    obtain ⟨h1, h2⟩ := newRelicRead_found _ lacework2 listing R pre post hget hl hid
      (fun r hr => hid ▸ hpre r hr)
    refine ⟨h2, by rw [h1, hs], ?_⟩
    rw [h1]
    exact ⟨rfl, by rw [hs], by rw [hs], by rw [hs], by rw [hs], by rw [hs], by rw [hs],
      by rw [hs]⟩

theorem read_after_create_keeps_projection_witness :
    (resourceLaceworkAlertChannelDatadogRead
      (resourceLaceworkAlertChannelDatadogCreate sampleDeps
        (sampleDatadogState "" "eu" true false)
        (sampleClient [sampleDatadogRecord "guid-1" "datadog-alerts" 1] [] none)).d
      (sampleClient [sampleDatadogRecord "guid-7" "other" 0,
        sampleDatadogRecord "guid-1" "datadog-alerts" 1] [] none)).err = none ∧
    (resourceLaceworkAlertChannelNewRelicRead
      (resourceLaceworkAlertChannelNewRelicCreate sampleDeps
        (sampleNewRelicState "" true true)
        (sampleClient [] [sampleNewRelicRecord "guid-2" "newrelic-alerts" 1] none)).d
      (sampleClient [] [sampleNewRelicRecord "guid-2" "newrelic-alerts" 1] none)).d.name =
      (resourceLaceworkAlertChannelNewRelicCreate sampleDeps
        (sampleNewRelicState "" true true)
        (sampleClient [] [sampleNewRelicRecord "guid-2" "newrelic-alerts" 1] none)).d.name :=
  ⟨((read_after_create_keeps_projection sampleDeps).1
      (sampleDatadogState "" "eu" true false)
      (sampleClient [sampleDatadogRecord "guid-1" "datadog-alerts" 1] [] none)
      (sampleClient [sampleDatadogRecord "guid-7" "other" 0,
        sampleDatadogRecord "guid-1" "datadog-alerts" 1] [] none)
      ⟨[sampleDatadogRecord "guid-1" "datadog-alerts" 1]⟩
      ⟨[sampleDatadogRecord "guid-7" "other" 0, sampleDatadogRecord "guid-1" "datadog-alerts" 1]⟩
      (sampleDatadogRecord "guid-1" "datadog-alerts" 1)
      rfl rfl (by decide) rfl (by decide) (by decide)).1,
   ((read_after_create_keeps_projection sampleDeps).2
      (sampleNewRelicState "" true true)
      (sampleClient [] [sampleNewRelicRecord "guid-2" "newrelic-alerts" 1] none)
      (sampleClient [] [sampleNewRelicRecord "guid-2" "newrelic-alerts" 1] none)
      ⟨[sampleNewRelicRecord "guid-2" "newrelic-alerts" 1]⟩
      ⟨[sampleNewRelicRecord "guid-2" "newrelic-alerts" 1]⟩
      (sampleNewRelicRecord "guid-2" "newrelic-alerts" 1)
      rfl rfl (by decide) rfl (by decide) (by decide)).2.2.2.1⟩

end Lacework
